import Mathlib

/-!
Shallow embedding of the redundant boot-configuration selector of
EFI Boot Guard (`src/env/fatvars.c`), together with the simulation of the
external seams (file protocol, volume enumeration/filtering, CRC) exactly as
implemented by the repository's own test harness.

Machine integers of the C code (`uint32_t revision`, `uint16_t ustate`,
`uint16_t watchdog_timeout_sec`, CRC values) are modelled as `Nat`: the code
performs no arithmetic on them, only comparisons and assignments, so no
overflow behaviour is observable.  UCS-2 strings are modelled as lists of
code units (`List Nat`).  File I/O and CRC computation are driven by
per-volume seam descriptions mirroring the error-injection harness.
-/

namespace EBG

/-- Modelled from the spec: numeric values of the `ustate` constants come from
`envdata.h`, which is not under `src/`; only their distinctness is relied
upon.  `ustate` is one of `OK`, `INSTALLED`, `TESTING`, `FAILED`, or unknown. -/
def USTATE_OK : Nat := 0

def USTATE_INSTALLED : Nat := 1

def USTATE_TESTING : Nat := 2

def USTATE_FAILED : Nat := 3

/-- The failed-revision sentinel: `fatvars.c` marks a failed update "by giving
a zero-revision", so `REVISION_FAILED` is 0. -/
def REVISION_FAILED : Nat := 0

/-- Modelled from the spec: the compile-time expected redundancy
(`ENV_NUM_CONFIG_PARTS`); its header is not under `src/`.  The claims only
compare the surviving handle count against it. -/
def ENV_NUM_CONFIG_PARTS : Nat := 2

/-- Modelled from the spec: fixed capacity of the UCS-2 string fields
(`ENV_STRING_LENGTH`); only the position of the forced terminator uses it. -/
def ENV_STRING_LENGTH : Nat := 255

/-- Abstract fixed byte size of the on-disk record (`sizeof(BG_ENVDATA)`).
Memory layout is not modelled; the code only ever compares lengths against
this constant for equality. -/
def sizeof_BG_ENVDATA : Nat := 512

/-- The environment record (struct `BG_ENVDATA`).  `in_progress` is modelled
from the spec as a boolean (the header with the exact C integer type is not
under `src/`; the tests only store 0/1). -/
structure BG_ENVDATA where
  revision : Nat
  in_progress : Bool
  ustate : Nat
  watchdog_timeout_sec : Nat
  kernelfile : List Nat
  kernelparams : List Nat
  crc32 : Nat
deriving Repr, DecidableEq, Inhabited

/-- A candidate slot: `struct EnvDataVolume` pairing a volume index with a
decoded record. -/
structure EnvDataVolume where
  volume_index : Nat
  envdata : BG_ENVDATA
deriving Repr, DecidableEq, Inhabited

/-- `config_state_ranking` of `fatvars.c`: prefer INSTALLED, then TESTING,
over OK, but eschew FAILED and unknown.  The C initialises `unsigned rank`
to `-1` (i.e. `UINT_MAX`) for a NULL argument. -/
def config_state_ranking : Option BG_ENVDATA → Nat
  | none => 4294967295
  | some envdata =>
    if envdata.ustate = USTATE_INSTALLED then 0
    else if envdata.ustate = USTATE_TESTING then 1
    else if envdata.ustate = USTATE_OK then 2
    else 3

/-- The swap decision of `sift_envdata_volume` in `fatvars.c`.  `ob` is the
`IsOnBootVolume` predicate applied to `volumes[volume_index].devpath`.
`swap = true` means the right-hand slot is strictly preferred. -/
def sift_swap (ob : Nat → Bool) : Option EnvDataVolume → Option EnvDataVolume → Bool
  | _, none => false
  | none, some _ => true
  | some lhs, some rhs =>
    let lstaterank := config_state_ranking (some lhs.envdata)
    let rstaterank := config_state_ranking (some rhs.envdata)
    let lbootvolume := ob lhs.volume_index
    let rbootvolume := ob rhs.volume_index
    if lhs.envdata.in_progress ≠ rhs.envdata.in_progress then
      lhs.envdata.in_progress
    else if lhs.envdata.revision ≠ rhs.envdata.revision then
      decide (lhs.envdata.revision < rhs.envdata.revision)
    else if lstaterank ≠ rstaterank then
      decide (lstaterank > rstaterank)
    else if lbootvolume ≠ rbootvolume then
      !lbootvolume && rbootvolume
    else if lhs.volume_index ≠ rhs.volume_index then
      decide (lhs.volume_index > rhs.volume_index)
    else
      false

/-- `sift_envdata_volume`: swap the pair of slots when the right one is
preferred, so that the left is always at least as preferred. -/
def sift_envdata_volume (ob : Nat → Bool)
    (p : Option EnvDataVolume × Option EnvDataVolume) :
    Option EnvDataVolume × Option EnvDataVolume :=
  if sift_swap ob p.1 p.2 then (p.2, p.1) else p

/-- One iteration of the ranking loop of `load_config`: the freshly read
candidate occupies the scratch slot (index 2) and is bubbled leftward by the
two `sift_envdata_volume` calls; the scratch slot's final content is dropped
(it is recycled for the next read). -/
def sift_insert (ob : Nat → Bool)
    (top : Option EnvDataVolume × Option EnvDataVolume) (c : EnvDataVolume) :
    Option EnvDataVolume × Option EnvDataVolume :=
  let s12 := sift_envdata_volume ob (top.2, some c)
  sift_envdata_volume ob (top.1, s12.1)

/-- Sifting a whole sequence of loaded candidates into the top-2 slots,
starting from empty slots, in load order. -/
def siftAll (ob : Nat → Bool) (cs : List EnvDataVolume) :
    Option EnvDataVolume × Option EnvDataVolume :=
  cs.foldl (sift_insert ob) (none, none)

/-- EFI status results distinguished by the code and the test harness.  Only
success versus error is ever branched on (`EFI_ERROR`). -/
inductive EfiStatus where
  | success
  | invalidParameter
  | badBufferSize
  | crcError
  | outOfResources
deriving Repr, DecidableEq, Inhabited

/-- The record-without-CRC region handed to `CalculateCrc32`
(`sizeof(BG_ENVDATA) - sizeof(crc32)` bytes): every field except the trailing
`crc32`. -/
def EnvBody : Type := Nat × Bool × Nat × Nat × List Nat × List Nat

/-- Project a record onto the CRC-covered region. -/
def envBody (d : BG_ENVDATA) : EnvBody :=
  (d.revision, d.in_progress, d.ustate, d.watchdog_timeout_sec,
   d.kernelfile, d.kernelparams)

/-- Per-volume behaviour of the read-side seams used by `read_config`:
`open_cfg_file`, `read_cfg_file` (resulting status, length and buffer
content), `close_cfg_file`, and `CalculateCrc32` failure injection. -/
structure ReadSeams where
  open_fails : Bool
  read_fails : Bool
  read_len : Nat
  read_data : BG_ENVDATA
  close_fails : Bool
  crc_fails : Bool
deriving Repr, DecidableEq, Inhabited

/-- `read_config` of `fatvars.c`.  Returns (errored flag, status, buffer).
The buffer content is only meaningful when the status is `success` (the C
caller skips the volume otherwise and never reads the buffer). -/
def read_config (crcFn : EnvBody → Nat) (io : ReadSeams) :
    Bool × EfiStatus × BG_ENVDATA :=
  if io.open_fails then
    (true, EfiStatus.invalidParameter, io.read_data)
  else if io.read_fails then
    (true, EfiStatus.invalidParameter, io.read_data)
  else if io.read_len ≠ sizeof_BG_ENVDATA then
    (true, EfiStatus.badBufferSize, io.read_data)
  else if io.crc_fails then
    (true, EfiStatus.invalidParameter, io.read_data)
  else if crcFn (envBody io.read_data) ≠ io.read_data.crc32 then
    (true, EfiStatus.crcError, io.read_data)
  else
    (io.close_fails, EfiStatus.success, io.read_data)

/-- `EFI_FILE_MODE_READ`. -/
def EFI_FILE_MODE_READ : Nat := 1

/-- `EFI_FILE_MODE_WRITE`. -/
def EFI_FILE_MODE_WRITE : Nat := 2

/-- Per-volume behaviour of the write-side seams used by
`save_current_config`: `open_cfg_file`, `CalculateCrc32`, the file
protocol's `Write`, and `close_cfg_file` failure injection. -/
structure WriteSeams where
  open_fails : Bool
  crc_fails : Bool
  write_fails : Bool
  close_fails : Bool
deriving Repr, DecidableEq, Inhabited

/-- The repository's file-protocol `Write` (`config_file_protocol_write` in
the test harness): after optional error injection, a buffer of exactly
`sizeof(BG_ENVDATA)` bytes is written whole and reported in full; any other
length writes nothing, reports 0 bytes, and returns `EFI_BAD_BUFFER_SIZE`.
Returns (status, bytes reported written). -/
def fileWrite (wio : WriteSeams) (writelen : Nat) : EfiStatus × Nat :=
  if wio.write_fails then
    (EfiStatus.invalidParameter, writelen)
  else if writelen = sizeof_BG_ENVDATA then
    (EfiStatus.success, writelen)
  else
    (EfiStatus.badBufferSize, 0)

/-- An observable `fh->Write` call: target volume, requested length, buffer
content. -/
structure WriteEvent where
  volume_index : Nat
  writelen : Nat
  data : BG_ENVDATA
deriving Repr, DecidableEq

/-- Result of `save_current_config`: its `BG_STATUS`, the mode passed to
`open_cfg_file`, the `fh->Write` calls performed, and the in-memory record
after the call (`env->envdata.crc32` is updated in place before writing). -/
structure SaveResult where
  saved : Bool
  opened : Option Nat
  writes : List WriteEvent
  env : EnvDataVolume
deriving Repr, DecidableEq

/-- `save_current_config` of `fatvars.c`: open the config file for
read+write, recompute the CRC over the record body, store it into the
in-memory record, write the whole fixed-size record, close.  `saved = true`
corresponds to `BG_SUCCESS`, `false` to `BG_CONFIG_ERROR`. -/
def save_current_config (crcFn : EnvBody → Nat) (wio : WriteSeams)
    (env : EnvDataVolume) : SaveResult :=
  let mode := EFI_FILE_MODE_WRITE ||| EFI_FILE_MODE_READ
  if wio.open_fails then
    { saved := false, opened := some mode, writes := [], env := env }
  else if wio.crc_fails then
    { saved := false, opened := some mode, writes := [], env := env }
  else
    let crc := crcFn (envBody env.envdata)
    let env' : EnvDataVolume :=
      { env with envdata := { env.envdata with crc32 := crc } }
    let ev : WriteEvent :=
      ⟨env.volume_index, sizeof_BG_ENVDATA, env'.envdata⟩
    let wr := fileWrite wio sizeof_BG_ENVDATA
    if wr.1 ≠ EfiStatus.success then
      { saved := false, opened := some mode, writes := [ev], env := env' }
    else if wio.close_fails then
      { saved := false, opened := some mode, writes := [ev], env := env' }
    else
      { saved := true, opened := some mode, writes := [ev], env := env' }

/-- One volume of the global `volumes[]` array: whether its `devpath` is the
boot volume (`IsOnBootVolume`), whether it carries a config file (the test
harness's `enumerate_cfg_parts` picks volumes with a non-null root), whether
`filter_cfg_parts` drops it (its `devpath` is on the non-boot disk), and its
read/write seam behaviour. -/
structure VolumeDesc where
  isBoot : Bool
  hasConfig : Bool
  filteredOut : Bool
  rio : ReadSeams
  wio : WriteSeams
deriving Repr, DecidableEq, Inhabited

/-- `volumes[vx]`; out-of-range reads yield the default descriptor (never
exercised: all handled indices come from `List.range vols.length`). -/
def volAt (vols : List VolumeDesc) (vx : Nat) : VolumeDesc :=
  (vols[vx]?).getD default

/-- The `IsOnBootVolume(volumes[vx].devpath)` predicate as a function of the
volume index. -/
def onBootOf (vols : List VolumeDesc) : Nat → Bool :=
  fun vx => (volAt vols vx).isBoot

/-- `enumerate_cfg_parts` as implemented by the repository's harness: the
indices of the volumes holding a config file, in volume order. -/
def enumerate_cfg_parts (vols : List VolumeDesc) : List Nat :=
  (List.range vols.length).filter (fun vx => (volAt vols vx).hasConfig)

/-- `filter_cfg_parts` as implemented by the repository's harness: drop
in place the volumes residing on the non-boot disk. -/
def filter_cfg_parts (vols : List VolumeDesc) (idxs : List Nat) : List Nat :=
  idxs.filter (fun vx => !(volAt vols vx).filteredOut)

/-- The handle list `load_config` iterates over: enumerated then filtered
volume indices. -/
def handleList (vols : List VolumeDesc) : List Nat :=
  filter_cfg_parts vols (enumerate_cfg_parts vols)

/-- The `read_config` outcome for one handled volume. -/
def loadOutcome (crcFn : EnvBody → Nat) (vols : List VolumeDesc) (vx : Nat) :
    Bool × EfiStatus × BG_ENVDATA :=
  read_config crcFn (volAt vols vx).rio

/-- Force NUL-termination at the last slot of a string field
(`envdata.kernelfile[ENV_STRING_LENGTH - 1] = 0`). -/
def enforceNul (s : List Nat) : List Nat :=
  s.set (ENV_STRING_LENGTH - 1) 0

/-- The string-termination enforcement applied to a freshly read record. -/
def nulTerminate (d : BG_ENVDATA) : BG_ENVDATA :=
  { d with kernelfile := enforceNul d.kernelfile,
           kernelparams := enforceNul d.kernelparams }

/-- The candidates that survive the per-volume load: for each handled volume
whose `read_config` succeeded, the NUL-terminated record paired with its
volume index, in handle order. -/
def candidates (crcFn : EnvBody → Nat) (vols : List VolumeDesc) :
    List EnvDataVolume :=
  (handleList vols).filterMap (fun vx =>
    let r := loadOutcome crcFn vols vx
    if r.2.1 = EfiStatus.success then some ⟨vx, nulTerminate r.2.2⟩ else none)

/-- Whether any per-volume read set the errored flag. -/
def readErrors (crcFn : EnvBody → Nat) (vols : List VolumeDesc) : Bool :=
  (handleList vols).any (fun vx => (loadOutcome crcFn vols vx).1)

/-- The ranking loop of `load_config` (lines 258-296 of `fatvars.c`): read
each handled volume, accumulate the errored flag, skip hard read errors, and
sift successfully read records into the top-2 slots. -/
def load_loop (crcFn : EnvBody → Nat) (vols : List VolumeDesc) :
    Bool × (Option EnvDataVolume × Option EnvDataVolume) :=
  (handleList vols).foldl
    (fun acc vx =>
      let r := loadOutcome crcFn vols vx
      let errored := acc.1 || r.1
      if r.2.1 ≠ EfiStatus.success then (errored, acc.2)
      else (errored, sift_insert (onBootOf vols) acc.2 ⟨vx, nulTerminate r.2.2⟩))
    (false, (none, none))

/-- `BG_STATUS` values of `load_config`. -/
inductive BG_STATUS where
  | BG_SUCCESS
  | BG_CONFIG_PARTIALLY_CORRUPTED
  | BG_CONFIG_ERROR
  | BG_NOT_IMPLEMENTED
deriving Repr, DecidableEq, Inhabited

/-- The caller's loader parameters (`BG_LOADER_PARAMS`). -/
structure BG_LOADER_PARAMS where
  payload_path : List Nat
  payload_options : List Nat
  timeout : Nat
deriving Repr, DecidableEq, Inhabited

/-- `StrDuplicate`: a fresh copy of the wide string; modelled as the code
units before the terminating NUL. -/
def strDuplicate (s : List Nat) : List Nat :=
  s.takeWhile (· ≠ 0)

/-- The observable outcome of one `load_config` run: returned status, the
(possibly untouched) loader parameters, the `fh->Write` calls performed, and
the effective record finally chosen (logged by the code as "Choosing config
on volume %d" together with its revision and ustate). -/
structure LoadResult where
  status : BG_STATUS
  bglp : BG_LOADER_PARAMS
  writes : List WriteEvent
  chosen : Option EnvDataVolume
deriving Repr, DecidableEq

/-- `load_config` of `fatvars.c`.  `alloc_fails` models `AllocatePool`
failure for the index vector and `enumerate_fails` a failing
`enumerate_cfg_parts`; both abort with `BG_CONFIG_ERROR` before any read. -/
def load_config (crcFn : EnvBody → Nat) (alloc_fails enumerate_fails : Bool)
    (vols : List VolumeDesc) (bglp : BG_LOADER_PARAMS) : LoadResult :=
  if vols.length = 0 then
    ⟨BG_STATUS.BG_CONFIG_ERROR, bglp, [], none⟩
  else if alloc_fails then
    ⟨BG_STATUS.BG_CONFIG_ERROR, bglp, [], none⟩
  else if enumerate_fails then
    ⟨BG_STATUS.BG_CONFIG_ERROR, bglp, [], none⟩
  else
    let errored0 : Bool := decide ((handleList vols).length ≠ ENV_NUM_CONFIG_PARTS)
    let loop := load_loop crcFn vols
    let errored := errored0 || loop.1
    match loop.2.1, loop.2.2 with
    | none, _ => ⟨BG_STATUS.BG_CONFIG_ERROR, bglp, [], none⟩
    | some nextv, prev =>
      if nextv.envdata.in_progress then
        ⟨BG_STATUS.BG_CONFIG_ERROR, bglp, [], none⟩
      else if nextv.envdata.ustate = USTATE_TESTING then
        let latest : EnvDataVolume :=
          { nextv with envdata :=
            { nextv.envdata with ustate := USTATE_FAILED,
                                 revision := REVISION_FAILED } }
        let sres := save_current_config crcFn (volAt vols latest.volume_index).wio latest
        match prev with
        | none => ⟨BG_STATUS.BG_CONFIG_ERROR, bglp, sres.writes, none⟩
        | some prevv =>
          ⟨if errored then BG_STATUS.BG_CONFIG_PARTIALLY_CORRUPTED else BG_STATUS.BG_SUCCESS,
           ⟨strDuplicate prevv.envdata.kernelfile,
            strDuplicate prevv.envdata.kernelparams,
            prevv.envdata.watchdog_timeout_sec⟩,
           sres.writes, some prevv⟩
      else if nextv.envdata.ustate = USTATE_INSTALLED then
        let latest : EnvDataVolume :=
          { nextv with envdata := { nextv.envdata with ustate := USTATE_TESTING } }
        let sres := save_current_config crcFn (volAt vols latest.volume_index).wio latest
        ⟨if errored then BG_STATUS.BG_CONFIG_PARTIALLY_CORRUPTED else BG_STATUS.BG_SUCCESS,
         ⟨strDuplicate sres.env.envdata.kernelfile,
          strDuplicate sres.env.envdata.kernelparams,
          sres.env.envdata.watchdog_timeout_sec⟩,
         sres.writes, some sres.env⟩
      else
        ⟨if errored then BG_STATUS.BG_CONFIG_PARTIALLY_CORRUPTED else BG_STATUS.BG_SUCCESS,
         ⟨strDuplicate nextv.envdata.kernelfile,
          strDuplicate nextv.envdata.kernelparams,
          nextv.envdata.watchdog_timeout_sec⟩,
         [], some nextv⟩

/-- The most preferred slot after ranking (`rank_envdata[0]`, alias `next`). -/
def rankedLeader (crcFn : EnvBody → Nat) (vols : List VolumeDesc) :
    Option EnvDataVolume :=
  (siftAll (onBootOf vols) (candidates crcFn vols)).1

/-- The runner-up slot after ranking (`rank_envdata[1]`, alias `prev`). -/
def rankedRunnerUp (crcFn : EnvBody → Nat) (vols : List VolumeDesc) :
    Option EnvDataVolume :=
  (siftAll (onBootOf vols) (candidates crcFn vols)).2

/-- The `errored` flag of the orchestrator just before the verdict: the
partition-count anomaly or any per-volume read error. -/
def runErrored (crcFn : EnvBody → Nat) (vols : List VolumeDesc) : Bool :=
  decide ((handleList vols).length ≠ ENV_NUM_CONFIG_PARTS) || readErrors crcFn vols

/-- The ustate rank as the specification words it:
`INSTALLED = 0, TESTING = 1, OK = 2, anything else = 3`. -/
def ustate_rank (d : BG_ENVDATA) : Nat :=
  if d.ustate = USTATE_INSTALLED then 0
  else if d.ustate = USTATE_TESTING then 1
  else if d.ustate = USTATE_OK then 2
  else 3

/-- The strict preference between two present candidates, exactly as the
specification lists the tie-breakers: `in_progress = false` beats `true`,
then higher revision, then lower ustate rank, then on-boot-volume beats
not-on-boot-volume, then lower volume index; equal candidates are not
ordered either way. -/
def spec_prefers (ob : Nat → Bool) (a b : EnvDataVolume) : Prop :=
  (a.envdata.in_progress = false ∧ b.envdata.in_progress = true) ∨
  (a.envdata.in_progress = b.envdata.in_progress ∧
    (b.envdata.revision < a.envdata.revision ∨
      (a.envdata.revision = b.envdata.revision ∧
        (ustate_rank a.envdata < ustate_rank b.envdata ∨
          (ustate_rank a.envdata = ustate_rank b.envdata ∧
            ((ob a.volume_index = true ∧ ob b.volume_index = false) ∨
              (ob a.volume_index = ob b.volume_index ∧
                a.volume_index < b.volume_index)))))))

instance instDecidableSpecPrefers (ob : Nat → Bool) (a b : EnvDataVolume) :
    Decidable (spec_prefers ob a b) := by
  unfold spec_prefers
  infer_instance

/-- Numeric value of a boolean flag. -/
def boolVal (b : Bool) : Nat := cond b 1 0

/-- The full comparison key of a candidate: in-progress flag, revision,
ustate rank, boot-volume flag, volume index. -/
def prefKey (ob : Nat → Bool) (a : EnvDataVolume) : Nat × Nat × Nat × Nat × Nat :=
  (boolVal a.envdata.in_progress, a.envdata.revision, ustate_rank a.envdata,
   boolVal (ob a.volume_index), a.volume_index)

/-- Strict lexicographic preference on full keys: smaller in-progress value,
then larger revision, then smaller rank, then larger boot flag, then smaller
volume index. -/
def prefKeyLt (k l : Nat × Nat × Nat × Nat × Nat) : Prop :=
  k.1 < l.1 ∨ (k.1 = l.1 ∧
    (l.2.1 < k.2.1 ∨ (k.2.1 = l.2.1 ∧
      (k.2.2.1 < l.2.2.1 ∨ (k.2.2.1 = l.2.2.1 ∧
        (l.2.2.2.1 < k.2.2.2.1 ∨ (k.2.2.2.1 = l.2.2.2.1 ∧
          k.2.2.2.2 < l.2.2.2.2)))))))

/-- The volume-independent part of a candidate: its record together with its
boot-volume flag (both travel with the volume when the array is permuted). -/
def candVal (vols : List VolumeDesc) (c : EnvDataVolume) : BG_ENVDATA × Bool :=
  (c.envdata, onBootOf vols c.volume_index)

/-- The candidate values of one run, in load order. -/
def candVals (crcFn : EnvBody → Nat) (vols : List VolumeDesc) :
    List (BG_ENVDATA × Bool) :=
  (candidates crcFn vols).map (candVal vols)

/-- The position-independent comparison key of a candidate value: the first
four tie-breakers (everything except the volume index). -/
def key4 (p : BG_ENVDATA × Bool) : Nat × Nat × Nat × Nat :=
  (boolVal p.1.in_progress, p.1.revision, ustate_rank p.1, boolVal p.2)

/-- Strict lexicographic preference on position-independent keys. -/
def key4Lt (k l : Nat × Nat × Nat × Nat) : Prop :=
  k.1 < l.1 ∨ (k.1 = l.1 ∧
    (l.2.1 < k.2.1 ∨ (k.2.1 = l.2.1 ∧
      (k.2.2.1 < l.2.2.1 ∨ (k.2.2.1 = l.2.2.1 ∧
        l.2.2.2 < k.2.2.2)))))

/-- The tie-breakers fully resolve the ordering of a run: no two loaded
candidates agree on all of (in_progress, revision, ustate rank, boot-volume
flag), so the ranking never falls back to the enumeration-dependent volume
index. -/
def Resolvable (crcFn : EnvBody → Nat) (vols : List VolumeDesc) : Prop :=
  (candVals crcFn vols).Pairwise (fun p q => key4 p ≠ key4 q)

instance instDecidableResolvable (crcFn : EnvBody → Nat)
    (vols : List VolumeDesc) : Decidable (Resolvable crcFn vols) := by
  unfold Resolvable
  infer_instance

/-- The tail of `load_config` past the early exits, as a function of the
ranked top-2 slots and the accumulated errored flag (definitionally equal to
the corresponding branch of `load_config`; used to state per-branch facts). -/
def selector (crcFn : EnvBody → Nat) (vols : List VolumeDesc)
    (bglp : BG_LOADER_PARAMS) : LoadResult :=
  let errored := runErrored crcFn vols
  match rankedLeader crcFn vols, rankedRunnerUp crcFn vols with
  | none, _ => ⟨BG_STATUS.BG_CONFIG_ERROR, bglp, [], none⟩
  | some nextv, prev =>
    if nextv.envdata.in_progress then
      ⟨BG_STATUS.BG_CONFIG_ERROR, bglp, [], none⟩
    else if nextv.envdata.ustate = USTATE_TESTING then
      let latest : EnvDataVolume :=
        { nextv with envdata :=
          { nextv.envdata with ustate := USTATE_FAILED,
                               revision := REVISION_FAILED } }
      let sres := save_current_config crcFn (volAt vols latest.volume_index).wio latest
      match prev with
      | none => ⟨BG_STATUS.BG_CONFIG_ERROR, bglp, sres.writes, none⟩
      | some prevv =>
        ⟨if errored then BG_STATUS.BG_CONFIG_PARTIALLY_CORRUPTED else BG_STATUS.BG_SUCCESS,
         ⟨strDuplicate prevv.envdata.kernelfile,
          strDuplicate prevv.envdata.kernelparams,
          prevv.envdata.watchdog_timeout_sec⟩,
         sres.writes, some prevv⟩
    else if nextv.envdata.ustate = USTATE_INSTALLED then
      let latest : EnvDataVolume :=
        { nextv with envdata := { nextv.envdata with ustate := USTATE_TESTING } }
      let sres := save_current_config crcFn (volAt vols latest.volume_index).wio latest
      ⟨if errored then BG_STATUS.BG_CONFIG_PARTIALLY_CORRUPTED else BG_STATUS.BG_SUCCESS,
       ⟨strDuplicate sres.env.envdata.kernelfile,
        strDuplicate sres.env.envdata.kernelparams,
        sres.env.envdata.watchdog_timeout_sec⟩,
       sres.writes, some sres.env⟩
    else
      ⟨if errored then BG_STATUS.BG_CONFIG_PARTIALLY_CORRUPTED else BG_STATUS.BG_SUCCESS,
       ⟨strDuplicate nextv.envdata.kernelfile,
        strDuplicate nextv.envdata.kernelparams,
        nextv.envdata.watchdog_timeout_sec⟩,
       [], some nextv⟩

/-- What it means for a slot pair to hold the most-preferred and second-most
preferred candidates of a load sequence: an empty sequence leaves both slots
empty, a singleton fills only slot 0, and otherwise slot 0 holds an occurrence
beaten by no candidate while slot 1 holds an occurrence (at a different
position) beaten by no candidate other than slot 0's occurrence. -/
def IsTop2 (ob : Nat → Bool) (cs : List EnvDataVolume) :
    Option EnvDataVolume × Option EnvDataVolume → Prop
  | (none, s1) => cs = [] ∧ s1 = none
  | (some a, none) => cs = [a]
  | (some a, some b) =>
      (∀ c ∈ cs, ¬ spec_prefers ob c a) ∧
      ∃ i j : Nat, i ≠ j ∧ cs[i]? = some a ∧ cs[j]? = some b ∧
        ∀ k : Nat, k ≠ i → ∀ c, cs[k]? = some c → ¬ spec_prefers ob c b

/-- A volume with all write-side failure injections cleared; read behaviour
is untouched. -/
def stripWriteFaults (v : VolumeDesc) : VolumeDesc :=
  { v with wio := default }

/-- The constant-zero CRC function driving the concrete runs below. -/
def cexCrc : EnvBody → Nat := fun _ => 0

/-- A caller-provided loader-parameter record with recognisable contents. -/
def cexBglp : BG_LOADER_PARAMS := ⟨[9], [8], 7⟩

/-- A record whose stored CRC matches `cexCrc`. -/
def mkRecord (rev : Nat) (ip : Bool) (us wdt : Nat) (kf kp : List Nat) :
    BG_ENVDATA :=
  ⟨rev, ip, us, wdt, kf, kp, 0⟩

/-- A fault-free config-carrying volume holding the given record. -/
def mkVolume (boot : Bool) (d : BG_ENVDATA) (w : WriteSeams) : VolumeDesc :=
  { isBoot := boot, hasConfig := true, filteredOut := false,
    rio := { open_fails := false, read_fails := false,
             read_len := sizeof_BG_ENVDATA, read_data := d,
             close_fails := false, crc_fails := false },
    wio := w }

/-- Run with a non-in-progress TESTING leader and an in-progress runner-up. -/
def cex6Vols : List VolumeDesc :=
  [mkVolume false (mkRecord 2 false USTATE_TESTING 11 [5, 0] []) default,
   mkVolume false (mkRecord 5 true USTATE_OK 55 [9, 0] []) default]

/-- Run with an INSTALLED leader whose write-back open fails. -/
def cex4Vols : List VolumeDesc :=
  [mkVolume false (mkRecord 2 false USTATE_INSTALLED 11 [5, 0] [])
     ⟨true, false, false, false⟩,
   mkVolume false (mkRecord 1 false USTATE_OK 99 [8, 0] []) default]

/-- Run in which every candidate is in progress. -/
def cex7Vols : List VolumeDesc :=
  [mkVolume false (mkRecord 1 true USTATE_OK 11 [] []) default,
   mkVolume false (mkRecord 1 true USTATE_OK 11 [] []) default]

/-- Run with a FAILED leader outranking an OK record by revision. -/
def cex10Vols : List VolumeDesc :=
  [mkVolume false (mkRecord 5 false USTATE_FAILED 44 [3, 0] []) default,
   mkVolume false (mkRecord 1 false USTATE_OK 99 [] []) default]

/-- Run with a TESTING leader and an OK runner-up, both fault-free. -/
def cex2Vols : List VolumeDesc :=
  [mkVolume false (mkRecord 2 false USTATE_TESTING 11 [5, 0] []) default,
   mkVolume false (mkRecord 1 false USTATE_OK 99 [8, 0] []) default]

/-- Run with an INSTALLED leader and an OK runner-up, both fault-free. -/
def cex3Vols : List VolumeDesc :=
  [mkVolume false (mkRecord 2 false USTATE_INSTALLED 11 [5, 0] []) default,
   mkVolume false (mkRecord 1 false USTATE_OK 99 [8, 0] []) default]

/-- Run with non-in-progress OK leader and an in-progress record. -/
def cexAm6Vols : List VolumeDesc :=
  [mkVolume false (mkRecord 2 false USTATE_OK 11 [5, 0] []) default,
   mkVolume false (mkRecord 5 true USTATE_OK 55 [9, 0] []) default]

/-- Two OK records with distinct revisions, on distinguishable volumes. -/
def cex9Vols : List VolumeDesc :=
  [mkVolume true (mkRecord 2 false USTATE_OK 11 [5, 0] [6, 0]) default,
   mkVolume false (mkRecord 1 false USTATE_OK 99 [8, 0] []) default]

/-- The same volumes as `cex9Vols` in the opposite order. -/
def cex9VolsRev : List VolumeDesc :=
  [mkVolume false (mkRecord 1 false USTATE_OK 99 [8, 0] []) default,
   mkVolume true (mkRecord 2 false USTATE_OK 11 [5, 0] [6, 0]) default]

/-- The candidate value a single volume contributes to a run: its decoded,
NUL-terminated record paired with its boot flag, when the volume is
enumerated, survives the filter, and its read succeeds. -/
def candScan (crcFn : EnvBody → Nat) (v : VolumeDesc) :
    Option (BG_ENVDATA × Bool) :=
  if v.hasConfig ∧ ¬ v.filteredOut = true ∧
      (read_config crcFn v.rio).2.1 = EfiStatus.success then
    some (nulTerminate (read_config crcFn v.rio).2.2, v.isBoot)
  else
    none

/-! ### Properties of the preference order -/

theorem config_state_ranking_some (d : BG_ENVDATA) :
    config_state_ranking (some d) = ustate_rank d := rfl

theorem spec_prefers_iff_prefKeyLt (ob : Nat → Bool) (a b : EnvDataVolume) :
    spec_prefers ob a b ↔ prefKeyLt (prefKey ob a) (prefKey ob b) := by
  unfold spec_prefers prefKeyLt prefKey boolVal
  cases ha : a.envdata.in_progress <;> cases hb : b.envdata.in_progress <;>
    cases hoa : ob a.volume_index <;> cases hob : ob b.volume_index <;>
      simp <;> omega

theorem prefKeyLt_asymm {k l : Nat × Nat × Nat × Nat × Nat}
    (h : prefKeyLt k l) : ¬ prefKeyLt l k := by
  unfold prefKeyLt at *
  omega

theorem prefKeyLt_irrefl (k : Nat × Nat × Nat × Nat × Nat) : ¬ prefKeyLt k k := by
  unfold prefKeyLt
  omega

theorem prefKeyLt_negtrans {k l m : Nat × Nat × Nat × Nat × Nat}
    (h1 : ¬ prefKeyLt l k) (h2 : ¬ prefKeyLt m l) : ¬ prefKeyLt m k := by
  unfold prefKeyLt at *
  omega

theorem prefKeyLt_mix {k l m : Nat × Nat × Nat × Nat × Nat}
    (h1 : prefKeyLt k l) (h2 : ¬ prefKeyLt m l) : prefKeyLt k m := by
  unfold prefKeyLt at *
  omega

theorem spec_prefers_asymm {ob : Nat → Bool} {a b : EnvDataVolume}
    (h : spec_prefers ob a b) : ¬ spec_prefers ob b a := by
  rw [spec_prefers_iff_prefKeyLt] at *
  exact prefKeyLt_asymm h

theorem spec_prefers_irrefl (ob : Nat → Bool) (a : EnvDataVolume) :
    ¬ spec_prefers ob a a := by
  rw [spec_prefers_iff_prefKeyLt]
  exact prefKeyLt_irrefl _

theorem spec_prefers_negtrans {ob : Nat → Bool} {a b c : EnvDataVolume}
    (h1 : ¬ spec_prefers ob b a) (h2 : ¬ spec_prefers ob c b) :
    ¬ spec_prefers ob c a := by
  rw [spec_prefers_iff_prefKeyLt] at *
  exact prefKeyLt_negtrans h1 h2

theorem spec_prefers_mix {ob : Nat → Bool} {a c x : EnvDataVolume}
    (h1 : spec_prefers ob c a) (h2 : ¬ spec_prefers ob x a) :
    spec_prefers ob c x := by
  rw [spec_prefers_iff_prefKeyLt] at *
  exact prefKeyLt_mix h1 h2

theorem sift_swap_none_right (ob : Nat → Bool) (x : Option EnvDataVolume) :
    sift_swap ob x none = false := by
  cases x <;> rfl

theorem sift_swap_none_left (ob : Nat → Bool) (c : EnvDataVolume) :
    sift_swap ob none (some c) = true := rfl

theorem sift_swap_some_iff (ob : Nat → Bool) (l r : EnvDataVolume) :
    sift_swap ob (some l) (some r) = true ↔ spec_prefers ob r l := by
  rw [spec_prefers_iff_prefKeyLt]
  unfold sift_swap prefKeyLt prefKey boolVal
  simp only [config_state_ranking_some]
  cases hl : l.envdata.in_progress <;> cases hr : r.envdata.in_progress <;>
    cases hbl : ob l.volume_index <;> cases hbr : ob r.volume_index <;>
      simp [hl, hr, hbl, hbr] <;> split_ifs <;> (try simp) <;> omega

/-! ### The sift loop maintains the top-2 slots -/

theorem sift_insert_none_none (ob : Nat → Bool) (c : EnvDataVolume) :
    sift_insert ob (none, none) c = (some c, none) := by
  simp [sift_insert, sift_envdata_volume, sift_swap]

theorem sift_insert_some_none (ob : Nat → Bool) (a c : EnvDataVolume) :
    sift_insert ob (some a, none) c =
      if sift_swap ob (some a) (some c) then (some c, some a)
      else (some a, some c) := by
  simp only [sift_insert, sift_envdata_volume, sift_swap]
  split_ifs <;> simp_all [sift_swap]

theorem sift_insert_some_some (ob : Nat → Bool) (a b c : EnvDataVolume) :
    sift_insert ob (some a, some b) c =
      if sift_swap ob (some b) (some c) then
        (if sift_swap ob (some a) (some c) then (some c, some a)
         else (some a, some c))
      else
        (if sift_swap ob (some a) (some b) then (some b, some a)
         else (some a, some b)) := by
  simp only [sift_insert, sift_envdata_volume]
  split_ifs <;> simp_all

theorem siftAll_append_singleton (ob : Nat → Bool) (cs : List EnvDataVolume)
    (c : EnvDataVolume) :
    siftAll ob (cs ++ [c]) = sift_insert ob (siftAll ob cs) c := by
  unfold siftAll
  rw [List.foldl_append]
  rfl

theorem getElem?_concat_cases {α : Type} (cs : List α) (c : α) (k : Nat) {x : α}
    (h : (cs ++ [c])[k]? = some x) :
    (k < cs.length ∧ cs[k]? = some x) ∨ (k = cs.length ∧ x = c) := by
  by_cases hk : k < cs.length
  · left
    refine ⟨hk, ?_⟩
    rw [List.getElem?_append, if_pos hk] at h
    exact h
  · right
    by_cases hk2 : k = cs.length
    · subst hk2
      rw [List.getElem?_concat_length] at h
      exact ⟨rfl, (Option.some.inj h).symm⟩
    · exfalso
      have hge : cs.length + 1 ≤ k := by omega
      rw [List.getElem?_eq_none (by simpa using hge)] at h
      exact Option.noConfusion h

theorem mem_of_getElem?_some {α : Type} {cs : List α} {k : Nat} {x : α}
    (h : cs[k]? = some x) : x ∈ cs := by
  rcases List.getElem?_eq_some.mp h with ⟨hlt, he⟩
  exact he ▸ List.getElem_mem hlt

theorem siftAll_isTop2 (ob : Nat → Bool) (cs : List EnvDataVolume) :
    IsTop2 ob cs (siftAll ob cs) := by
  induction cs using List.reverseRecOn with
  | nil => exact ⟨rfl, rfl⟩
  | append_singleton cs c ih =>
    rw [siftAll_append_singleton]
    rcases h0 : siftAll ob cs with ⟨s0, s1⟩
    rw [h0] at ih
    match s0, s1, ih with
    | none, s1, ih =>
      obtain ⟨hnil, hs1⟩ := ih
      subst hnil
      subst hs1
      rw [sift_insert_none_none]
      show ([] : List EnvDataVolume) ++ [c] = [c]
      rfl
    | some a, none, ih =>
      have hcs : cs = [a] := ih
      subst hcs
      rw [sift_insert_some_none]
      by_cases hsw : sift_swap ob (some a) (some c) = true
      · have hca : spec_prefers ob c a := (sift_swap_some_iff ob a c).mp hsw
        rw [if_pos hsw]
        refine ⟨?_, 1, 0, by omega, rfl, rfl, ?_⟩
        · intro x hx
          rcases List.mem_append.mp hx with hx | hx
          · rw [List.mem_singleton.mp hx]
            exact fun hac => spec_prefers_asymm hca hac
          · rw [List.mem_singleton.mp hx]
            exact spec_prefers_irrefl ob c
        · intro k hk x hkx
          rcases getElem?_concat_cases [a] c k hkx with ⟨hlt, hx⟩ | ⟨hke, hx⟩
          · have hk0 : k = 0 := by simpa using hlt
            subst hk0
            simp only [List.getElem?_cons_zero, Option.some.injEq] at hx
            subst hx
            exact spec_prefers_irrefl ob a
          · simp only [List.length_singleton] at hke
            omega
      · have hnca : ¬ spec_prefers ob c a := fun hp =>
          hsw ((sift_swap_some_iff ob a c).mpr hp)
        rw [if_neg hsw]
        refine ⟨?_, 0, 1, by omega, rfl, rfl, ?_⟩
        · intro x hx
          rcases List.mem_append.mp hx with hx | hx
          · rw [List.mem_singleton.mp hx]
            exact spec_prefers_irrefl ob a
          · rw [List.mem_singleton.mp hx]
            exact hnca
        · intro k hk x hkx
          rcases getElem?_concat_cases [a] c k hkx with ⟨hlt, hx⟩ | ⟨hke, hx⟩
          · simp only [List.length_singleton] at hlt
            omega
          · subst hx
            exact spec_prefers_irrefl ob x
    | some a, some b, ih =>
      obtain ⟨maxA, i, j, hij, hi, hj, secondB⟩ := ih
      have hilen : i < cs.length := (List.getElem?_eq_some.mp hi).1
      have hjlen : j < cs.length := (List.getElem?_eq_some.mp hj).1
      have hbmem : b ∈ cs := mem_of_getElem?_some hj
      have hnba : ¬ spec_prefers ob b a := maxA b hbmem
      have hswab : ¬ (sift_swap ob (some a) (some b) = true) := fun hsw =>
        hnba ((sift_swap_some_iff ob a b).mp hsw)
      rw [sift_insert_some_some]
      by_cases hswbc : sift_swap ob (some b) (some c) = true
      · have hcb : spec_prefers ob c b := (sift_swap_some_iff ob b c).mp hswbc
        rw [if_pos hswbc]
        by_cases hswac : sift_swap ob (some a) (some c) = true
        · have hca : spec_prefers ob c a := (sift_swap_some_iff ob a c).mp hswac
          rw [if_pos hswac]
          refine ⟨?_, cs.length, i, by omega, List.getElem?_concat_length cs c, ?_, ?_⟩
          · intro x hx
            rcases List.mem_append.mp hx with hx | hx
            · exact fun hxc => spec_prefers_asymm (spec_prefers_mix hca (maxA x hx)) hxc
            · rw [List.mem_singleton.mp hx]
              exact spec_prefers_irrefl ob c
          · rw [List.getElem?_append, if_pos hilen]
            exact hi
          · intro k hk x hkx
            rcases getElem?_concat_cases cs c k hkx with ⟨hlt, hx⟩ | ⟨hke, hx⟩
            · exact maxA x (mem_of_getElem?_some hx)
            · omega
        · have hnca : ¬ spec_prefers ob c a := fun hp =>
            hswac ((sift_swap_some_iff ob a c).mpr hp)
          rw [if_neg hswac]
          refine ⟨?_, i, cs.length, by omega, ?_, List.getElem?_concat_length cs c, ?_⟩
          · intro x hx
            rcases List.mem_append.mp hx with hx | hx
            · exact maxA x hx
            · rw [List.mem_singleton.mp hx]
              exact hnca
          · rw [List.getElem?_append, if_pos hilen]
            exact hi
          · intro k hk x hkx
            rcases getElem?_concat_cases cs c k hkx with ⟨hlt, hx⟩ | ⟨hke, hx⟩
            · intro hxc
              exact spec_prefers_asymm (spec_prefers_mix hcb (secondB k hk x hx)) hxc
            · subst hx
              exact spec_prefers_irrefl ob x
      · have hncb : ¬ spec_prefers ob c b := fun hp =>
          hswbc ((sift_swap_some_iff ob b c).mpr hp)
        rw [if_neg hswbc, if_neg hswab]
        have hnca : ¬ spec_prefers ob c a := spec_prefers_negtrans hnba hncb
        refine ⟨?_, i, j, hij, ?_, ?_, ?_⟩
        · intro x hx
          rcases List.mem_append.mp hx with hx | hx
          · exact maxA x hx
          · rw [List.mem_singleton.mp hx]
            exact hnca
        · rw [List.getElem?_append, if_pos hilen]
          exact hi
        · rw [List.getElem?_append, if_pos hjlen]
          exact hj
        · intro k hk x hkx
          rcases getElem?_concat_cases cs c k hkx with ⟨hlt, hx⟩ | ⟨hke, hx⟩
          · exact secondB k hk x hx
          · subst hx
            exact hncb

/-! ### Decomposing the orchestrator -/

theorem load_loop_aux (crcFn : EnvBody → Nat) (vols : List VolumeDesc)
    (hs : List Nat) (e : Bool) (acc : Option EnvDataVolume × Option EnvDataVolume) :
    hs.foldl
      (fun acc vx =>
        let r := loadOutcome crcFn vols vx
        let errored := acc.1 || r.1
        if r.2.1 ≠ EfiStatus.success then (errored, acc.2)
        else (errored, sift_insert (onBootOf vols) acc.2 ⟨vx, nulTerminate r.2.2⟩))
      (e, acc) =
    (e || hs.any (fun vx => (loadOutcome crcFn vols vx).1),
     (hs.filterMap (fun vx =>
        let r := loadOutcome crcFn vols vx
        if r.2.1 = EfiStatus.success then some ⟨vx, nulTerminate r.2.2⟩ else none)).foldl
       (sift_insert (onBootOf vols)) acc) := by
  induction hs generalizing e acc with
  | nil => simp
  | cons vx hs ih =>
    simp only [List.foldl_cons, List.any_cons, List.filterMap_cons]
    by_cases hsucc : (loadOutcome crcFn vols vx).2.1 = EfiStatus.success
    · rw [if_neg (fun h => h hsucc), if_pos hsucc]
      rw [ih]
      simp [Bool.or_assoc]
    · rw [if_pos hsucc, if_neg hsucc]
      rw [ih]
      simp [Bool.or_assoc]

theorem load_loop_eq (crcFn : EnvBody → Nat) (vols : List VolumeDesc) :
    load_loop crcFn vols =
      (readErrors crcFn vols,
       siftAll (onBootOf vols) (candidates crcFn vols)) := by
  unfold load_loop readErrors candidates siftAll
  rw [load_loop_aux]
  simp

theorem load_config_eq_selector (crcFn : EnvBody → Nat) (vols : List VolumeDesc)
    (bglp : BG_LOADER_PARAMS) (hvne : vols.length ≠ 0) :
    load_config crcFn false false vols bglp = selector crcFn vols bglp := by
  unfold load_config selector
  rw [if_neg hvne, if_neg Bool.false_ne_true, if_neg Bool.false_ne_true,
    load_loop_eq]
  rfl

theorem rankedLeader_nil (crcFn : EnvBody → Nat) : rankedLeader crcFn [] = none := rfl

theorem rankedLeader_some_ne_nil {crcFn : EnvBody → Nat} {vols : List VolumeDesc}
    {a : EnvDataVolume} (hL : rankedLeader crcFn vols = some a) :
    vols.length ≠ 0 := by
  intro h
  rw [List.length_eq_zero.mp h, rankedLeader_nil] at hL
  exact Option.noConfusion hL

theorem selector_leader_none (crcFn : EnvBody → Nat) (vols : List VolumeDesc)
    (bglp : BG_LOADER_PARAMS) (hL : rankedLeader crcFn vols = none) :
    selector crcFn vols bglp = ⟨BG_STATUS.BG_CONFIG_ERROR, bglp, [], none⟩ := by
  unfold selector
  rw [hL]

theorem selector_leader_in_progress (crcFn : EnvBody → Nat) (vols : List VolumeDesc)
    (bglp : BG_LOADER_PARAMS) (a : EnvDataVolume)
    (hL : rankedLeader crcFn vols = some a)
    (hip : a.envdata.in_progress = true) :
    selector crcFn vols bglp = ⟨BG_STATUS.BG_CONFIG_ERROR, bglp, [], none⟩ := by
  unfold selector
  rw [hL]
  simp only [hip, if_true]

theorem selector_testing (crcFn : EnvBody → Nat) (vols : List VolumeDesc)
    (bglp : BG_LOADER_PARAMS) (a : EnvDataVolume)
    (hL : rankedLeader crcFn vols = some a)
    (hip : a.envdata.in_progress = false)
    (hus : a.envdata.ustate = USTATE_TESTING) :
    selector crcFn vols bglp =
      (let latest : EnvDataVolume :=
        { a with envdata :=
          { a.envdata with ustate := USTATE_FAILED, revision := REVISION_FAILED } }
       let sres := save_current_config crcFn (volAt vols latest.volume_index).wio latest
       match rankedRunnerUp crcFn vols with
       | none => ⟨BG_STATUS.BG_CONFIG_ERROR, bglp, sres.writes, none⟩
       | some prevv =>
         ⟨if runErrored crcFn vols then BG_STATUS.BG_CONFIG_PARTIALLY_CORRUPTED
          else BG_STATUS.BG_SUCCESS,
          ⟨strDuplicate prevv.envdata.kernelfile,
           strDuplicate prevv.envdata.kernelparams,
           prevv.envdata.watchdog_timeout_sec⟩,
          sres.writes, some prevv⟩) := by
  unfold selector
  rw [hL]
  simp [hip, hus]

theorem selector_installed (crcFn : EnvBody → Nat) (vols : List VolumeDesc)
    (bglp : BG_LOADER_PARAMS) (a : EnvDataVolume)
    (hL : rankedLeader crcFn vols = some a)
    (hip : a.envdata.in_progress = false)
    (hus : a.envdata.ustate = USTATE_INSTALLED) :
    selector crcFn vols bglp =
      (let latest : EnvDataVolume :=
        { a with envdata := { a.envdata with ustate := USTATE_TESTING } }
       let sres := save_current_config crcFn (volAt vols latest.volume_index).wio latest
       ⟨if runErrored crcFn vols then BG_STATUS.BG_CONFIG_PARTIALLY_CORRUPTED
        else BG_STATUS.BG_SUCCESS,
        ⟨strDuplicate sres.env.envdata.kernelfile,
         strDuplicate sres.env.envdata.kernelparams,
         sres.env.envdata.watchdog_timeout_sec⟩,
        sres.writes, some sres.env⟩) := by
  unfold selector
  rw [hL]
  simp [hip, hus, show USTATE_INSTALLED ≠ USTATE_TESTING from by decide]

theorem selector_other (crcFn : EnvBody → Nat) (vols : List VolumeDesc)
    (bglp : BG_LOADER_PARAMS) (a : EnvDataVolume)
    (hL : rankedLeader crcFn vols = some a)
    (hip : a.envdata.in_progress = false)
    (hus1 : a.envdata.ustate ≠ USTATE_TESTING)
    (hus2 : a.envdata.ustate ≠ USTATE_INSTALLED) :
    selector crcFn vols bglp =
      ⟨if runErrored crcFn vols then BG_STATUS.BG_CONFIG_PARTIALLY_CORRUPTED
        else BG_STATUS.BG_SUCCESS,
       ⟨strDuplicate a.envdata.kernelfile,
        strDuplicate a.envdata.kernelparams,
        a.envdata.watchdog_timeout_sec⟩,
       [], some a⟩ := by
  unfold selector
  rw [hL]
  simp [hip, if_neg hus1, if_neg hus2]

theorem load_config_early (crcFn : EnvBody → Nat) (af ef : Bool)
    (vols : List VolumeDesc) (bglp : BG_LOADER_PARAMS)
    (h : vols.length = 0 ∨ af = true ∨ ef = true) :
    load_config crcFn af ef vols bglp =
      ⟨BG_STATUS.BG_CONFIG_ERROR, bglp, [], none⟩ := by
  unfold load_config
  by_cases h0 : vols.length = 0
  · rw [if_pos h0]
  · rw [if_neg h0]
    by_cases h1 : af = true
    · rw [if_pos h1]
    · rw [if_neg h1]
      have h2 : ef = true := by
        rcases h with h | h | h
        · exact absurd h h0
        · exact absurd h h1
        · exact h
      rw [if_pos h2]

theorem save_env_fields (crcFn : EnvBody → Nat) (wio : WriteSeams)
    (env : EnvDataVolume) :
    (save_current_config crcFn wio env).env.volume_index = env.volume_index ∧
    (save_current_config crcFn wio env).env.envdata.revision = env.envdata.revision ∧
    (save_current_config crcFn wio env).env.envdata.in_progress = env.envdata.in_progress ∧
    (save_current_config crcFn wio env).env.envdata.ustate = env.envdata.ustate ∧
    (save_current_config crcFn wio env).env.envdata.watchdog_timeout_sec =
      env.envdata.watchdog_timeout_sec ∧
    (save_current_config crcFn wio env).env.envdata.kernelfile = env.envdata.kernelfile ∧
    (save_current_config crcFn wio env).env.envdata.kernelparams = env.envdata.kernelparams := by
  unfold save_current_config
  split_ifs <;> (try simp) <;> split_ifs <;> simp

theorem save_writes_of_ok (crcFn : EnvBody → Nat) (wio : WriteSeams)
    (env : EnvDataVolume)
    (h1 : wio.open_fails = false) (h2 : wio.crc_fails = false) :
    (save_current_config crcFn wio env).writes =
      [⟨env.volume_index, sizeof_BG_ENVDATA,
        { env.envdata with crc32 := crcFn (envBody env.envdata) }⟩] := by
  unfold save_current_config
  rw [if_neg (by simp [h1]), if_neg (by simp [h2])]
  dsimp only
  split_ifs <;> rfl

/-! ### Claim theorems -/

/-- C1: for every sequence of successfully loaded candidates, after each
candidate is sifted into the ranking slots, slot 0 holds the most-preferred
candidate seen so far and slot 1 the second-most, under the order: a present
candidate beats an absent slot; then `in_progress = false` beats `true`; then
higher revision; then lower ustate rank (INSTALLED = 0, TESTING = 1, OK = 2,
anything else = 3); then on-boot-volume beats not; then lower volume index;
equal candidates are not swapped. -/
theorem sift_rank_maintenance (ob : Nat → Bool) (cs : List EnvDataVolume) :
    (∀ x : Option EnvDataVolume, sift_swap ob x none = false) ∧
    (∀ c : EnvDataVolume, sift_swap ob none (some c) = true) ∧
    (∀ a b : EnvDataVolume,
      sift_swap ob (some a) (some b) = true ↔ spec_prefers ob b a) ∧
    IsTop2 ob cs (siftAll ob cs) :=
  ⟨sift_swap_none_right ob, sift_swap_none_left ob,
   fun a b => sift_swap_some_iff ob a b, siftAll_isTop2 ob cs⟩

/-- C2: when the ranked leader exists, is not in progress, and has ustate
TESTING, `load_config` mutates it in memory to ustate FAILED and revision
`REVISION_FAILED`, recomputes the CRC and writes the record back to the
leader's volume (whenever the write-side open and CRC seams work), and then
returns `BG_CONFIG_ERROR` if no runner-up exists, otherwise selects the
runner-up as the effective choice. -/
theorem load_config_testing_demotion (crcFn : EnvBody → Nat)
    (vols : List VolumeDesc) (bglp : BG_LOADER_PARAMS) (a : EnvDataVolume)
    (hL : rankedLeader crcFn vols = some a)
    (hip : a.envdata.in_progress = false)
    (hus : a.envdata.ustate = USTATE_TESTING) :
    (((volAt vols a.volume_index).wio.open_fails = false →
      (volAt vols a.volume_index).wio.crc_fails = false →
      (load_config crcFn false false vols bglp).writes =
        [⟨a.volume_index, sizeof_BG_ENVDATA,
          { a.envdata with
              ustate := USTATE_FAILED,
              revision := REVISION_FAILED,
              crc32 := crcFn (envBody { a.envdata with
                                          ustate := USTATE_FAILED,
                                          revision := REVISION_FAILED }) }⟩])) ∧
    (rankedRunnerUp crcFn vols = none →
      (load_config crcFn false false vols bglp).status = BG_STATUS.BG_CONFIG_ERROR ∧
      (load_config crcFn false false vols bglp).chosen = none ∧
      (load_config crcFn false false vols bglp).bglp = bglp) ∧
    (∀ b, rankedRunnerUp crcFn vols = some b →
      (load_config crcFn false false vols bglp).chosen = some b ∧
      (load_config crcFn false false vols bglp).bglp =
        ⟨strDuplicate b.envdata.kernelfile, strDuplicate b.envdata.kernelparams,
         b.envdata.watchdog_timeout_sec⟩) := by
  have hv := rankedLeader_some_ne_nil hL
  rw [load_config_eq_selector crcFn vols bglp hv,
      selector_testing crcFn vols bglp a hL hip hus]
  refine ⟨?_, ?_, ?_⟩
  · intro h1 h2
    rcases hru : rankedRunnerUp crcFn vols with _ | b <;>
      simp only [hru] <;>
      exact save_writes_of_ok crcFn _ _ h1 h2
  · intro hru
    simp [hru]
  · intro b hru
    simp [hru]

/-- C3: when the ranked leader exists, is not in progress, and has ustate
INSTALLED, `load_config` mutates it to ustate TESTING with the revision
unchanged, recomputes the CRC and writes the record back to the leader's
volume (whenever the write-side open and CRC seams work), and the leader
remains the effective choice whose kernelfile, kernelparams and
watchdog_timeout_sec are handed to the loader parameters. -/
theorem load_config_installed_promotion (crcFn : EnvBody → Nat)
    (vols : List VolumeDesc) (bglp : BG_LOADER_PARAMS) (a : EnvDataVolume)
    (hL : rankedLeader crcFn vols = some a)
    (hip : a.envdata.in_progress = false)
    (hus : a.envdata.ustate = USTATE_INSTALLED) :
    (((volAt vols a.volume_index).wio.open_fails = false →
      (volAt vols a.volume_index).wio.crc_fails = false →
      (load_config crcFn false false vols bglp).writes =
        [⟨a.volume_index, sizeof_BG_ENVDATA,
          { a.envdata with
              ustate := USTATE_TESTING,
              crc32 := crcFn (envBody { a.envdata with ustate := USTATE_TESTING }) }⟩])) ∧
    (∀ c, (load_config crcFn false false vols bglp).chosen = some c →
      c.volume_index = a.volume_index ∧
      c.envdata.ustate = USTATE_TESTING ∧
      c.envdata.revision = a.envdata.revision) ∧
    (load_config crcFn false false vols bglp).chosen.isSome = true ∧
    (load_config crcFn false false vols bglp).bglp =
      ⟨strDuplicate a.envdata.kernelfile, strDuplicate a.envdata.kernelparams,
       a.envdata.watchdog_timeout_sec⟩ := by
  have hv := rankedLeader_some_ne_nil hL
  rw [load_config_eq_selector crcFn vols bglp hv,
      selector_installed crcFn vols bglp a hL hip hus]
  have hf := save_env_fields crcFn (volAt vols a.volume_index).wio
    { a with envdata := { a.envdata with ustate := USTATE_TESTING } }
  refine ⟨?_, ?_, rfl, ?_⟩
  · intro h1 h2
    exact save_writes_of_ok crcFn _ _ h1 h2
  · intro c hc
    have hc' := Option.some.inj hc
    rw [← hc']
    exact ⟨hf.1, hf.2.2.2.1, hf.2.1⟩
  · show BG_LOADER_PARAMS.mk _ _ _ = _
    rw [hf.2.2.2.2.2.1, hf.2.2.2.2.2.2, hf.2.2.2.2.1]

/-- C7: whenever no leader exists after ranking, or the leader has
`in_progress = true`, `load_config` returns `BG_CONFIG_ERROR`, performs no
write-back to any volume, and leaves the caller's loader parameter fields
unmodified. -/
theorem load_config_error_atomic (crcFn : EnvBody → Nat) (af ef : Bool)
    (vols : List VolumeDesc) (bglp : BG_LOADER_PARAMS)
    (h : rankedLeader crcFn vols = none ∨
         ∃ a, rankedLeader crcFn vols = some a ∧ a.envdata.in_progress = true) :
    (load_config crcFn af ef vols bglp).status = BG_STATUS.BG_CONFIG_ERROR ∧
    (load_config crcFn af ef vols bglp).writes = [] ∧
    (load_config crcFn af ef vols bglp).bglp = bglp := by
  by_cases hearly : vols.length = 0 ∨ af = true ∨ ef = true
  · rw [load_config_early crcFn af ef vols bglp hearly]
    exact ⟨rfl, rfl, rfl⟩
  · push_neg at hearly
    obtain ⟨hv, haf, hef⟩ := hearly
    have haf' : af = false := by
      cases af
      · rfl
      · exact absurd rfl haf
    have hef' : ef = false := by
      cases ef
      · rfl
      · exact absurd rfl hef
    subst haf'
    subst hef'
    rw [load_config_eq_selector crcFn vols bglp hv]
    rcases h with hnone | ⟨a, hL, hip⟩
    · rw [selector_leader_none crcFn vols bglp hnone]
      exact ⟨rfl, rfl, rfl⟩
    · rw [selector_leader_in_progress crcFn vols bglp a hL hip]
      exact ⟨rfl, rfl, rfl⟩

/-- C10 (implicit): a record whose ustate is FAILED or unknown still ranks
(with rank 3), and when the ranked leader is such a record and is not in
progress, `load_config` selects it as the effective choice without any
write-back, and returns `BG_SUCCESS` provided no error was flagged during
the run. -/
theorem load_config_failed_unknown_leader (crcFn : EnvBody → Nat)
    (vols : List VolumeDesc) (bglp : BG_LOADER_PARAMS) (a : EnvDataVolume)
    (hL : rankedLeader crcFn vols = some a)
    (hip : a.envdata.in_progress = false)
    (hok : a.envdata.ustate ≠ USTATE_OK)
    (hin : a.envdata.ustate ≠ USTATE_INSTALLED)
    (hte : a.envdata.ustate ≠ USTATE_TESTING) :
    (∀ d : BG_ENVDATA, d.ustate ≠ USTATE_OK → d.ustate ≠ USTATE_INSTALLED →
      d.ustate ≠ USTATE_TESTING → config_state_ranking (some d) = 3) ∧
    (load_config crcFn false false vols bglp).writes = [] ∧
    (load_config crcFn false false vols bglp).chosen = some a ∧
    (load_config crcFn false false vols bglp).bglp =
      ⟨strDuplicate a.envdata.kernelfile, strDuplicate a.envdata.kernelparams,
       a.envdata.watchdog_timeout_sec⟩ ∧
    (runErrored crcFn vols = false →
      (load_config crcFn false false vols bglp).status = BG_STATUS.BG_SUCCESS) := by
  have hv := rankedLeader_some_ne_nil hL
  rw [load_config_eq_selector crcFn vols bglp hv,
      selector_other crcFn vols bglp a hL hip hte hin]
  refine ⟨?_, rfl, rfl, rfl, ?_⟩
  · intro d h1 h2 h3
    simp [config_state_ranking, h1, h2, h3]
  · intro he
    simp [he]

/-- C5: every write-back opens the file with read+write access and writes
the entire fixed-size record in one `Write` call; the repository's file
protocol never reports success on a short write, and a `Write` call that
does not succeed makes the write-back fail. -/
theorem save_write_semantics (crcFn : EnvBody → Nat) (wio : WriteSeams)
    (env : EnvDataVolume) (len : Nat) :
    (save_current_config crcFn wio env).opened =
      some (EFI_FILE_MODE_WRITE ||| EFI_FILE_MODE_READ) ∧
    (∀ e ∈ (save_current_config crcFn wio env).writes,
      e.writelen = sizeof_BG_ENVDATA ∧ e.volume_index = env.volume_index) ∧
    ((fileWrite wio len).1 = EfiStatus.success → (fileWrite wio len).2 = len) ∧
    ((fileWrite wio len).2 < len → (fileWrite wio len).1 ≠ EfiStatus.success) ∧
    ((fileWrite wio sizeof_BG_ENVDATA).1 ≠ EfiStatus.success →
      (save_current_config crcFn wio env).saved = false) := by
  refine ⟨?_, ?_, ?_, ?_, ?_⟩
  · unfold save_current_config
    dsimp only
    split_ifs <;> rfl
  · intro e he
    unfold save_current_config at he
    dsimp only at he
    split_ifs at he <;> simp_all
  · intro h
    unfold fileWrite at *
    split_ifs at * <;> simp_all
  · intro h
    unfold fileWrite at *
    split_ifs at * <;> simp_all <;> omega
  · intro h
    unfold save_current_config
    dsimp only
    split_ifs <;> simp_all

/-- C8: for one volume, each of open failure, read failure, length mismatch,
CRC computation failure and CRC mismatch sets the errored flag and yields a
non-success status, so the orchestrator never ranks a candidate from that
volume; a failed close after an otherwise successful read sets the errored
flag but the record is still returned and, for a handled volume, still
ranked. -/
theorem read_config_error_semantics (crcFn : EnvBody → Nat) (io : ReadSeams)
    (vols : List VolumeDesc) (vx : Nat) :
    (io.open_fails = true →
      (read_config crcFn io).1 = true ∧
      (read_config crcFn io).2.1 ≠ EfiStatus.success) ∧
    (io.read_fails = true →
      (read_config crcFn io).1 = true ∧
      (read_config crcFn io).2.1 ≠ EfiStatus.success) ∧
    (io.read_len ≠ sizeof_BG_ENVDATA →
      (read_config crcFn io).1 = true ∧
      (read_config crcFn io).2.1 ≠ EfiStatus.success) ∧
    (io.crc_fails = true →
      (read_config crcFn io).1 = true ∧
      (read_config crcFn io).2.1 ≠ EfiStatus.success) ∧
    (crcFn (envBody io.read_data) ≠ io.read_data.crc32 →
      (read_config crcFn io).1 = true ∧
      (read_config crcFn io).2.1 ≠ EfiStatus.success) ∧
    (io.open_fails = false → io.read_fails = false →
      io.read_len = sizeof_BG_ENVDATA → io.crc_fails = false →
      crcFn (envBody io.read_data) = io.read_data.crc32 →
      io.close_fails = true →
      (read_config crcFn io).1 = true ∧
      (read_config crcFn io).2.1 = EfiStatus.success ∧
      (read_config crcFn io).2.2 = io.read_data) ∧
    ((loadOutcome crcFn vols vx).2.1 ≠ EfiStatus.success →
      ∀ c ∈ candidates crcFn vols, c.volume_index ≠ vx) ∧
    (vx ∈ handleList vols →
      (loadOutcome crcFn vols vx).2.1 = EfiStatus.success →
      ⟨vx, nulTerminate (loadOutcome crcFn vols vx).2.2⟩ ∈ candidates crcFn vols) := by
  refine ⟨?_, ?_, ?_, ?_, ?_, ?_, ?_, ?_⟩
  · intro h
    unfold read_config
    split_ifs <;> simp_all
  · intro h
    unfold read_config
    split_ifs <;> simp_all
  · intro h
    unfold read_config
    split_ifs <;> simp_all
  · intro h
    unfold read_config
    split_ifs <;> simp_all
  · intro h
    unfold read_config
    split_ifs <;> simp_all
  · intro h1 h2 h3 h4 h5 h6
    unfold read_config
    split_ifs <;> simp_all
  · intro hfail c hc
    unfold candidates at hc
    rcases List.mem_filterMap.mp hc with ⟨vy, hvy, hsome⟩
    dsimp only at hsome
    by_cases hs : (loadOutcome crcFn vols vy).2.1 = EfiStatus.success
    · rw [if_pos hs] at hsome
      have hcv := Option.some.inj hsome
      rw [← hcv]
      intro hvxeq
      dsimp only at hvxeq
      rw [hvxeq] at hs
      exact hfail hs
    · rw [if_neg hs] at hsome
      exact Option.noConfusion hsome
  · intro hmem hs
    unfold candidates
    apply List.mem_filterMap.mpr
    refine ⟨vx, hmem, ?_⟩
    dsimp only
    rw [if_pos hs]

theorem leader_not_in_progress {crcFn : EnvBody → Nat} {vols : List VolumeDesc}
    (hex : ∃ c ∈ candidates crcFn vols, c.envdata.in_progress = false) :
    ∃ a, rankedLeader crcFn vols = some a ∧ a.envdata.in_progress = false := by
  obtain ⟨c, hc, hcip⟩ := hex
  have h2 := siftAll_isTop2 (onBootOf vols) (candidates crcFn vols)
  rcases hsa : siftAll (onBootOf vols) (candidates crcFn vols) with ⟨s0, s1⟩
  rw [hsa] at h2
  have hr : rankedLeader crcFn vols = s0 := by
    unfold rankedLeader
    rw [hsa]
  match s0, s1, h2 with
  | none, s1, h2 =>
    rw [h2.1] at hc
    exact absurd hc (List.not_mem_nil c)
  | some a, none, h2 =>
    refine ⟨a, hr, ?_⟩
    rw [h2] at hc
    rw [← List.mem_singleton.mp hc]
    exact hcip
  | some a, some b, h2 =>
    refine ⟨a, hr, ?_⟩
    by_contra hip
    have hip' : a.envdata.in_progress = true := by
      cases h : a.envdata.in_progress
      · exact absurd h hip
      · rfl
    exact h2.1 c hc (Or.inl ⟨hcip, hip'⟩)

/-- C6 as stated is false on the code: in this run one candidate is not in
progress, yet the finally selected record is in progress — the TESTING
leader is demoted and the in-progress runner-up becomes the effective
choice. -/
theorem in_progress_selected_counterexample :
    (∃ c ∈ candidates cexCrc cex6Vols, c.envdata.in_progress = false) ∧
    ((load_config cexCrc false false cex6Vols cexBglp).chosen.map
      (fun c => c.envdata.in_progress)) = some true := by
  decide

/-- C6 amended: if some loaded candidate is not in progress then the ranked
leader is not in progress, and the effective choice is never an in-progress
record — except in the excluded case where a TESTING leader is demoted and
the runner-up (which may be in progress) is selected. -/
theorem non_in_progress_selection (crcFn : EnvBody → Nat)
    (vols : List VolumeDesc) (bglp : BG_LOADER_PARAMS)
    (hex : ∃ c ∈ candidates crcFn vols, c.envdata.in_progress = false)
    (hnt : ∀ a, rankedLeader crcFn vols = some a →
      a.envdata.ustate ≠ USTATE_TESTING) :
    (∃ a, rankedLeader crcFn vols = some a ∧ a.envdata.in_progress = false) ∧
    (∀ c, (load_config crcFn false false vols bglp).chosen = some c →
      c.envdata.in_progress = false) := by
  obtain ⟨a, hL, hip⟩ := leader_not_in_progress hex
  refine ⟨⟨a, hL, hip⟩, ?_⟩
  intro c hc
  have hv := rankedLeader_some_ne_nil hL
  rw [load_config_eq_selector crcFn vols bglp hv] at hc
  by_cases hin : a.envdata.ustate = USTATE_INSTALLED
  · rw [selector_installed crcFn vols bglp a hL hip hin] at hc
    have hf := save_env_fields crcFn (volAt vols a.volume_index).wio
      { a with envdata := { a.envdata with ustate := USTATE_TESTING } }
    rw [← Option.some.inj hc, hf.2.2.1]
    exact hip
  · rw [selector_other crcFn vols bglp a hL hip (hnt a hL) hin] at hc
    rw [← Option.some.inj hc]
    exact hip

/-! ### Write-side faults do not influence the read path or the verdict -/

theorem volAt_map_stripWriteFaults (vols : List VolumeDesc) (vx : Nat) :
    volAt (vols.map stripWriteFaults) vx = stripWriteFaults (volAt vols vx) := by
  unfold volAt
  rw [List.getElem?_map]
  cases vols[vx]? <;> rfl

theorem handleList_map_stripWriteFaults (vols : List VolumeDesc) :
    handleList (vols.map stripWriteFaults) = handleList vols := by
  have h1 : enumerate_cfg_parts (vols.map stripWriteFaults) = enumerate_cfg_parts vols := by
    unfold enumerate_cfg_parts
    rw [List.length_map]
    apply List.filter_congr
    intro vx _
    rw [volAt_map_stripWriteFaults]
    rfl
  unfold handleList filter_cfg_parts
  rw [h1]
  apply List.filter_congr
  intro vx _
  rw [volAt_map_stripWriteFaults]
  rfl

theorem onBootOf_map_stripWriteFaults (vols : List VolumeDesc) :
    onBootOf (vols.map stripWriteFaults) = onBootOf vols := by
  funext vx
  unfold onBootOf
  rw [volAt_map_stripWriteFaults]
  rfl

theorem loadOutcome_map_stripWriteFaults (crcFn : EnvBody → Nat)
    (vols : List VolumeDesc) (vx : Nat) :
    loadOutcome crcFn (vols.map stripWriteFaults) vx = loadOutcome crcFn vols vx := by
  unfold loadOutcome
  rw [volAt_map_stripWriteFaults]
  rfl

theorem candidates_map_stripWriteFaults (crcFn : EnvBody → Nat)
    (vols : List VolumeDesc) :
    candidates crcFn (vols.map stripWriteFaults) = candidates crcFn vols := by
  unfold candidates
  rw [handleList_map_stripWriteFaults]
  simp only [loadOutcome_map_stripWriteFaults]

theorem runErrored_map_stripWriteFaults (crcFn : EnvBody → Nat)
    (vols : List VolumeDesc) :
    runErrored crcFn (vols.map stripWriteFaults) = runErrored crcFn vols := by
  unfold runErrored readErrors
  rw [handleList_map_stripWriteFaults]
  simp only [loadOutcome_map_stripWriteFaults]

theorem rankedLeader_map_stripWriteFaults (crcFn : EnvBody → Nat)
    (vols : List VolumeDesc) :
    rankedLeader crcFn (vols.map stripWriteFaults) = rankedLeader crcFn vols := by
  unfold rankedLeader
  rw [onBootOf_map_stripWriteFaults, candidates_map_stripWriteFaults]

theorem rankedRunnerUp_map_stripWriteFaults (crcFn : EnvBody → Nat)
    (vols : List VolumeDesc) :
    rankedRunnerUp crcFn (vols.map stripWriteFaults) = rankedRunnerUp crcFn vols := by
  unfold rankedRunnerUp
  rw [onBootOf_map_stripWriteFaults, candidates_map_stripWriteFaults]

/-- C4 as stated is false on the code: in this concrete run the
INSTALLED→TESTING write-back fails at its open, the chosen configuration is
still returned, yet the failure does not reach the errored flag and the
verdict is `BG_SUCCESS`, not `BG_CONFIG_PARTIALLY_CORRUPTED`. -/
theorem writeback_failure_counterexample :
    (save_current_config cexCrc (volAt cex4Vols 0).wio
      ⟨0, { mkRecord 2 false USTATE_INSTALLED 11 [5, 0] [] with
              ustate := USTATE_TESTING }⟩).saved = false ∧
    (load_config cexCrc false false cex4Vols cexBglp).writes = [] ∧
    (load_config cexCrc false false cex4Vols cexBglp).chosen.isSome = true ∧
    (load_config cexCrc false false cex4Vols cexBglp).status = BG_STATUS.BG_SUCCESS := by
  decide

/-- C4 amended: when the TESTING→FAILED or INSTALLED→TESTING write-back
fails, the chosen effective configuration is still returned, but the failure
is ignored: it does not contribute to the errored flag, so the verdict and
the loader parameters are exactly those of the same run with a fault-free
write side. -/
theorem writeback_failure_ignored (crcFn : EnvBody → Nat) (af ef : Bool)
    (vols : List VolumeDesc) (bglp : BG_LOADER_PARAMS) :
    (load_config crcFn af ef vols bglp).status =
      (load_config crcFn af ef (vols.map stripWriteFaults) bglp).status ∧
    (load_config crcFn af ef vols bglp).bglp =
      (load_config crcFn af ef (vols.map stripWriteFaults) bglp).bglp ∧
    (load_config crcFn af ef vols bglp).chosen.isSome =
      (load_config crcFn af ef (vols.map stripWriteFaults) bglp).chosen.isSome := by
  by_cases hearly : vols.length = 0 ∨ af = true ∨ ef = true
  · have hearly' : (vols.map stripWriteFaults).length = 0 ∨ af = true ∨ ef = true := by
      rw [List.length_map]
      exact hearly
    rw [load_config_early crcFn af ef vols bglp hearly,
        load_config_early crcFn af ef (vols.map stripWriteFaults) bglp hearly']
    exact ⟨rfl, rfl, rfl⟩
  · push_neg at hearly
    obtain ⟨hv, haf, hef⟩ := hearly
    have haf' : af = false := by
      cases af
      · rfl
      · exact absurd rfl haf
    have hef' : ef = false := by
      cases ef
      · rfl
      · exact absurd rfl hef
    subst haf'
    subst hef'
    have hv' : (vols.map stripWriteFaults).length ≠ 0 := by
      rw [List.length_map]
      exact hv
    rw [load_config_eq_selector crcFn vols bglp hv,
        load_config_eq_selector crcFn (vols.map stripWriteFaults) bglp hv']
    rcases hL : rankedLeader crcFn vols with _ | a
    · have hL' : rankedLeader crcFn (vols.map stripWriteFaults) = none := by
        rw [rankedLeader_map_stripWriteFaults]
        exact hL
      rw [selector_leader_none crcFn vols bglp hL,
          selector_leader_none crcFn (vols.map stripWriteFaults) bglp hL']
      exact ⟨rfl, rfl, rfl⟩
    · have hL' : rankedLeader crcFn (vols.map stripWriteFaults) = some a := by
        rw [rankedLeader_map_stripWriteFaults]
        exact hL
      by_cases hip : a.envdata.in_progress = true
      · rw [selector_leader_in_progress crcFn vols bglp a hL hip,
            selector_leader_in_progress crcFn (vols.map stripWriteFaults) bglp a hL' hip]
        exact ⟨rfl, rfl, rfl⟩
      · have hip' : a.envdata.in_progress = false := by
          cases h : a.envdata.in_progress
          · rfl
          · exact absurd h hip
        by_cases hus : a.envdata.ustate = USTATE_TESTING
        · rw [selector_testing crcFn vols bglp a hL hip' hus,
              selector_testing crcFn (vols.map stripWriteFaults) bglp a hL' hip' hus]
          rw [rankedRunnerUp_map_stripWriteFaults, runErrored_map_stripWriteFaults]
          rcases hru : rankedRunnerUp crcFn vols with _ | b <;> simp [hru]
        · by_cases hin : a.envdata.ustate = USTATE_INSTALLED
          · rw [selector_installed crcFn vols bglp a hL hip' hin,
                selector_installed crcFn (vols.map stripWriteFaults) bglp a hL' hip' hin]
            rw [runErrored_map_stripWriteFaults]
            have hf1 := save_env_fields crcFn (volAt vols a.volume_index).wio
              { a with envdata := { a.envdata with ustate := USTATE_TESTING } }
            have hf2 := save_env_fields crcFn
              (volAt (vols.map stripWriteFaults) a.volume_index).wio
              { a with envdata := { a.envdata with ustate := USTATE_TESTING } }
            refine ⟨rfl, ?_, rfl⟩
            show BG_LOADER_PARAMS.mk _ _ _ = BG_LOADER_PARAMS.mk _ _ _
            rw [hf1.2.2.2.2.2.1, hf1.2.2.2.2.2.2, hf1.2.2.2.2.1,
                hf2.2.2.2.2.2.1, hf2.2.2.2.2.2.2, hf2.2.2.2.2.1]
          · rw [selector_other crcFn vols bglp a hL hip' hus hin,
                selector_other crcFn (vols.map stripWriteFaults) bglp a hL' hip' hus hin]
            rw [runErrored_map_stripWriteFaults]
            exact ⟨rfl, rfl, rfl⟩

/-! ### The candidate values are a function of the volume multiset -/

theorem filterMap_volAt {α : Type} (G : VolumeDesc → Option α)
    (vols : List VolumeDesc) :
    (List.range vols.length).filterMap (fun vx => G (volAt vols vx)) =
      vols.filterMap G := by
  induction vols with
  | nil => rfl
  | cons v vs ih =>
    rw [List.length_cons, List.range_succ_eq_map, List.filterMap_cons,
      List.filterMap_map]
    have hfun : ((fun vx => G (volAt (v :: vs) vx)) ∘ (· + 1)) =
        (fun vx => G (volAt vs vx)) := by
      funext vx
      simp [Function.comp, volAt]
    have h0 : volAt (v :: vs) 0 = v := by
      simp [volAt]
    rw [hfun, ih, h0, List.filterMap_cons]

theorem candVals_eq_filterMap (crcFn : EnvBody → Nat) (vols : List VolumeDesc) :
    candVals crcFn vols = vols.filterMap (candScan crcFn) := by
  unfold candVals candidates handleList filter_cfg_parts enumerate_cfg_parts
  rw [List.map_filterMap, List.filterMap_filter, List.filterMap_filter]
  rw [← filterMap_volAt (candScan crcFn) vols]
  apply List.filterMap_congr
  intro vx _
  unfold candScan
  by_cases hc : (volAt vols vx).hasConfig
  · by_cases hf : (volAt vols vx).filteredOut
    · simp [hc, hf]
    · by_cases hs : (read_config crcFn (volAt vols vx).rio).2.1 = EfiStatus.success
      · simp [hc, hf, hs, candVal, onBootOf, loadOutcome]
      · simp [hc, hf, hs, loadOutcome]
  · simp [hc]

theorem candVals_perm {crcFn : EnvBody → Nat} {vols vols' : List VolumeDesc}
    (hperm : vols.Perm vols') :
    (candVals crcFn vols).Perm (candVals crcFn vols') := by
  rw [candVals_eq_filterMap, candVals_eq_filterMap]
  exact hperm.filterMap _

theorem spec_prefers_of_key4Lt {vols : List VolumeDesc} {c d : EnvDataVolume}
    (h : key4Lt (key4 (candVal vols c)) (key4 (candVal vols d))) :
    spec_prefers (onBootOf vols) c d := by
  rw [spec_prefers_iff_prefKeyLt]
  unfold key4Lt key4 candVal at h
  unfold prefKeyLt prefKey
  dsimp only at h ⊢
  omega

theorem key4_eq_of_not_lt {k l : Nat × Nat × Nat × Nat}
    (h1 : ¬ key4Lt k l) (h2 : ¬ key4Lt l k) : k = l := by
  rcases k with ⟨k1, k2, k3, k4⟩
  rcases l with ⟨l1, l2, l3, l4⟩
  unfold key4Lt at h1 h2
  dsimp only at h1 h2
  simp only [Prod.mk.injEq]
  omega

theorem key4_ne_symmetric :
    Symmetric (fun p q : BG_ENVDATA × Bool => key4 p ≠ key4 q) :=
  fun _ _ h => Ne.symm h

theorem resolvable_eq_of_key4 {crcFn : EnvBody → Nat} {vols : List VolumeDesc}
    (hres : Resolvable crcFn vols) {p q : BG_ENVDATA × Bool}
    (hp : p ∈ candVals crcFn vols) (hq : q ∈ candVals crcFn vols)
    (hk : key4 p = key4 q) : p = q := by
  by_contra hne
  exact List.Pairwise.forall key4_ne_symmetric hres hp hq hne hk

theorem resolvable_perm {crcFn : EnvBody → Nat} {vols vols' : List VolumeDesc}
    (hperm : vols.Perm vols') (hres : Resolvable crcFn vols) :
    Resolvable crcFn vols' := by
  unfold Resolvable at *
  exact ((@candVals_perm crcFn vols vols' hperm).pairwise_iff
    (fun {_ _} h => Ne.symm h)).mp hres

theorem pairwise_map_ne_key4 {crcFn : EnvBody → Nat} {vols : List VolumeDesc}
    (hres : Resolvable crcFn vols) {i j : Nat} {x y : EnvDataVolume}
    (hij : i ≠ j) (hi : (candidates crcFn vols)[i]? = some x)
    (hj : (candidates crcFn vols)[j]? = some y) :
    key4 (candVal vols x) ≠ key4 (candVal vols y) := by
  unfold Resolvable candVals at hres
  rw [List.pairwise_iff_getElem] at hres
  rcases List.getElem?_eq_some.mp hi with ⟨hilen, hig⟩
  rcases List.getElem?_eq_some.mp hj with ⟨hjlen, hjg⟩
  rcases Nat.lt_or_ge i j with hlt | hge
  · have h := hres i j (by simpa using hilen) (by simpa using hjlen) hlt
    rw [List.getElem_map, List.getElem_map, hig, hjg] at h
    exact h
  · have hlt : j < i := by omega
    have h := hres j i (by simpa using hjlen) (by simpa using hilen) hlt
    rw [List.getElem_map, List.getElem_map, hig, hjg] at h
    exact Ne.symm h

theorem leader_facts {crcFn : EnvBody → Nat} {vols : List VolumeDesc}
    {a : EnvDataVolume} (hL : rankedLeader crcFn vols = some a) :
    a ∈ candidates crcFn vols ∧
      ∀ c ∈ candidates crcFn vols, ¬ spec_prefers (onBootOf vols) c a := by
  have h2 := siftAll_isTop2 (onBootOf vols) (candidates crcFn vols)
  unfold rankedLeader at hL
  rcases hs : siftAll (onBootOf vols) (candidates crcFn vols) with ⟨s0, s1⟩
  rw [hs] at h2 hL
  dsimp only at hL
  match s0, s1, h2, hL with
  | some a', none, h2, hL =>
    rw [Option.some.inj hL] at h2
    rw [h2]
    refine ⟨List.mem_singleton_self a, ?_⟩
    intro c hc
    rw [List.mem_singleton.mp hc]
    exact spec_prefers_irrefl _ a
  | some a', some b, h2, hL =>
    obtain ⟨hmax, i, j, hij, hi, hj, hsecond⟩ := h2
    rw [Option.some.inj hL] at hi hmax
    exact ⟨mem_of_getElem?_some hi, hmax⟩

theorem leader_none_iff {crcFn : EnvBody → Nat} {vols : List VolumeDesc} :
    rankedLeader crcFn vols = none ↔ candidates crcFn vols = [] := by
  have h2 := siftAll_isTop2 (onBootOf vols) (candidates crcFn vols)
  unfold rankedLeader
  rcases hs : siftAll (onBootOf vols) (candidates crcFn vols) with ⟨s0, s1⟩
  rw [hs] at h2
  constructor
  · intro h
    dsimp only at h
    match s0, s1, h2, h with
    | none, s1, h2, h => exact h2.1
  · intro h
    rw [h] at hs
    have : (none, none) = (s0, s1) := by
      rw [← hs]
      rfl
    dsimp only
    rw [← (Prod.mk.injEq ..).mp this |>.1]

theorem runner_none_iff {crcFn : EnvBody → Nat} {vols : List VolumeDesc} :
    rankedRunnerUp crcFn vols = none ↔ (candidates crcFn vols).length ≤ 1 := by
  have h2 := siftAll_isTop2 (onBootOf vols) (candidates crcFn vols)
  unfold rankedRunnerUp
  rcases hs : siftAll (onBootOf vols) (candidates crcFn vols) with ⟨s0, s1⟩
  rw [hs] at h2
  dsimp only
  match s0, s1, h2 with
  | none, s1, h2 =>
    rw [h2.1, h2.2]
    simp
  | some a, none, h2 =>
    rw [h2]
    simp
  | some a, some b, h2 =>
    obtain ⟨_, i, j, hij, hi, hj, _⟩ := h2
    have hilen := (List.getElem?_eq_some.mp hi).1
    have hjlen := (List.getElem?_eq_some.mp hj).1
    simp only [reduceCtorEq, false_iff]
    omega

theorem runner_facts {crcFn : EnvBody → Nat} {vols : List VolumeDesc}
    {a b : EnvDataVolume} (hL : rankedLeader crcFn vols = some a)
    (hR : rankedRunnerUp crcFn vols = some b) :
    ∃ i j : Nat, i ≠ j ∧ (candidates crcFn vols)[i]? = some a ∧
      (candidates crcFn vols)[j]? = some b ∧
      ∀ k : Nat, k ≠ i → ∀ c, (candidates crcFn vols)[k]? = some c →
        ¬ spec_prefers (onBootOf vols) c b := by
  have h2 := siftAll_isTop2 (onBootOf vols) (candidates crcFn vols)
  unfold rankedLeader at hL
  unfold rankedRunnerUp at hR
  rcases hs : siftAll (onBootOf vols) (candidates crcFn vols) with ⟨s0, s1⟩
  rw [hs] at h2 hL hR
  dsimp only at hL hR
  match s0, s1, h2, hL, hR with
  | some a', some b', h2, hL, hR =>
    obtain ⟨hmax, i, j, hij, hi, hj, hsecond⟩ := h2
    rw [Option.some.inj hL] at hi
    rw [Option.some.inj hR] at hj hsecond
    exact ⟨i, j, hij, hi, hj, hsecond⟩

theorem leader_val_unique {crcFn : EnvBody → Nat} {vols vols' : List VolumeDesc}
    {a a' : EnvDataVolume} (hperm : vols.Perm vols')
    (hres : Resolvable crcFn vols)
    (hL : rankedLeader crcFn vols = some a)
    (hL' : rankedLeader crcFn vols' = some a') :
    candVal vols a = candVal vols' a' := by
  obtain ⟨hamem, hamax⟩ := leader_facts hL
  obtain ⟨hamem', hamax'⟩ := leader_facts hL'
  have hva : candVal vols a ∈ candVals crcFn vols :=
    List.mem_map_of_mem _ hamem
  have hva' : candVal vols' a' ∈ candVals crcFn vols' :=
    List.mem_map_of_mem _ hamem'
  have hvperm := @candVals_perm crcFn vols vols' hperm
  have hva'2 : candVal vols' a' ∈ candVals crcFn vols :=
    hvperm.mem_iff.mpr hva'
  by_cases hk1 : key4Lt (key4 (candVal vols' a')) (key4 (candVal vols a))
  · exfalso
    rcases List.mem_map.mp hva'2 with ⟨c₀, hc₀, hval⟩
    refine hamax c₀ hc₀ (spec_prefers_of_key4Lt ?_)
    rw [hval]
    exact hk1
  · by_cases hk2 : key4Lt (key4 (candVal vols a)) (key4 (candVal vols' a'))
    · exfalso
      have hva2 : candVal vols a ∈ candVals crcFn vols' := hvperm.mem_iff.mp hva
      rcases List.mem_map.mp hva2 with ⟨c₁, hc₁, hval⟩
      refine hamax' c₁ hc₁ (spec_prefers_of_key4Lt ?_)
      rw [hval]
      exact hk2
    · exact resolvable_eq_of_key4 hres hva hva'2 (key4_eq_of_not_lt hk2 hk1)

theorem runner_val_unique {crcFn : EnvBody → Nat} {vols vols' : List VolumeDesc}
    {a a' b b' : EnvDataVolume} (hperm : vols.Perm vols')
    (hres : Resolvable crcFn vols)
    (hL : rankedLeader crcFn vols = some a)
    (hL' : rankedLeader crcFn vols' = some a')
    (hR : rankedRunnerUp crcFn vols = some b)
    (hR' : rankedRunnerUp crcFn vols' = some b') :
    candVal vols b = candVal vols' b' := by
  have hvala := leader_val_unique hperm hres hL hL'
  have hres' := resolvable_perm hperm hres
  have hvperm := @candVals_perm crcFn vols vols' hperm
  obtain ⟨i, j, hij, hi, hj, hsecond⟩ := runner_facts hL hR
  obtain ⟨i', j', hij', hi', hj', hsecond'⟩ := runner_facts hL' hR'
  have hvb : candVal vols b ∈ candVals crcFn vols :=
    List.mem_map_of_mem _ (mem_of_getElem?_some hj)
  have hvb' : candVal vols' b' ∈ candVals crcFn vols' :=
    List.mem_map_of_mem _ (mem_of_getElem?_some hj')
  have hvb'2 : candVal vols' b' ∈ candVals crcFn vols :=
    hvperm.mem_iff.mpr hvb'
  have hkey_ab' : key4 (candVal vols' a') ≠ key4 (candVal vols' b') :=
    pairwise_map_ne_key4 hres' hij' hi' hj'
  have hkey_ab : key4 (candVal vols a) ≠ key4 (candVal vols b) :=
    pairwise_map_ne_key4 hres hij hi hj
  by_cases hk1 : key4Lt (key4 (candVal vols' b')) (key4 (candVal vols b))
  · exfalso
    rcases List.mem_map.mp hvb'2 with ⟨c₀, hc₀, hval⟩
    rcases List.mem_iff_getElem?.mp hc₀ with ⟨k, hk⟩
    have hkne : k ≠ i := by
      intro hki
      subst hki
      rw [hk] at hi
      rw [Option.some.inj hi] at hval
      rw [← hval, hvala] at hkey_ab'
      exact hkey_ab' rfl
    refine hsecond k hkne c₀ hk (spec_prefers_of_key4Lt ?_)
    rw [hval]
    exact hk1
  · by_cases hk2 : key4Lt (key4 (candVal vols b)) (key4 (candVal vols' b'))
    · exfalso
      have hvb2 : candVal vols b ∈ candVals crcFn vols' := hvperm.mem_iff.mp hvb
      rcases List.mem_map.mp hvb2 with ⟨c₁, hc₁, hval⟩
      rcases List.mem_iff_getElem?.mp hc₁ with ⟨k, hk⟩
      have hkne : k ≠ i' := by
        intro hki
        subst hki
        rw [hk] at hi'
        rw [Option.some.inj hi'] at hval
        exact hkey_ab (congrArg key4 (hvala.trans hval))
      refine hsecond' k hkne c₁ hk (spec_prefers_of_key4Lt ?_)
      rw [hval]
      exact hk2
    · exact resolvable_eq_of_key4 hres hvb hvb'2 (key4_eq_of_not_lt hk2 hk1)

/-- C9: for any two runs of `load_config` whose volume arrays are
permutations of each other (each volume carries its record, its devpath
boot flag and its per-volume seam outcomes with it), when the tie-breakers
fully resolve the candidate ordering, the returned payload_path,
payload_options and timeout are identical. -/
theorem load_config_perm_deterministic (crcFn : EnvBody → Nat) (af ef : Bool)
    (vols vols' : List VolumeDesc) (bglp : BG_LOADER_PARAMS)
    (hperm : vols.Perm vols') (hres : Resolvable crcFn vols) :
    (load_config crcFn af ef vols bglp).bglp =
      (load_config crcFn af ef vols' bglp).bglp := by
  have hlen := hperm.length_eq
  by_cases hearly : vols.length = 0 ∨ af = true ∨ ef = true
  · have hearly' : vols'.length = 0 ∨ af = true ∨ ef = true := by
      rw [← hlen]
      exact hearly
    rw [load_config_early crcFn af ef vols bglp hearly,
        load_config_early crcFn af ef vols' bglp hearly']
  · push_neg at hearly
    obtain ⟨hv, haf, hef⟩ := hearly
    have haf' : af = false := by
      cases af
      · rfl
      · exact absurd rfl haf
    have hef' : ef = false := by
      cases ef
      · rfl
      · exact absurd rfl hef
    subst haf'
    subst hef'
    have hv' : vols'.length ≠ 0 := by
      rw [← hlen]
      exact hv
    rw [load_config_eq_selector crcFn vols bglp hv,
        load_config_eq_selector crcFn vols' bglp hv']
    have hclen : (candidates crcFn vols).length = (candidates crcFn vols').length := by
      have h := (@candVals_perm crcFn vols vols' hperm).length_eq
      unfold candVals at h
      rw [List.length_map, List.length_map] at h
      exact h
    rcases hL : rankedLeader crcFn vols with _ | a
    · have hc0 : candidates crcFn vols = [] := leader_none_iff.mp hL
      have hL' : rankedLeader crcFn vols' = none := by
        apply leader_none_iff.mpr
        apply List.length_eq_zero.mp
        rw [← hclen, hc0]
        rfl
      rw [selector_leader_none crcFn vols bglp hL,
          selector_leader_none crcFn vols' bglp hL']
    · have hLex : ∃ a', rankedLeader crcFn vols' = some a' := by
        rcases h' : rankedLeader crcFn vols' with _ | a'
        · exfalso
          have hc0 := leader_none_iff.mp h'
          have h0 : (candidates crcFn vols).length = 0 := by
            rw [hclen, hc0]
            rfl
          rw [leader_none_iff.mpr (List.length_eq_zero.mp h0)] at hL
          exact Option.noConfusion hL
        · exact ⟨a', rfl⟩
      obtain ⟨a', hL'⟩ := hLex
      have hval := leader_val_unique hperm hres hL hL'
      have henv : a.envdata = a'.envdata := congrArg Prod.fst hval
      by_cases hip : a.envdata.in_progress = true
      · have hip2 : a'.envdata.in_progress = true := by
          rw [← henv]
          exact hip
        rw [selector_leader_in_progress crcFn vols bglp a hL hip,
            selector_leader_in_progress crcFn vols' bglp a' hL' hip2]
      · have hip' : a.envdata.in_progress = false := by
          cases h : a.envdata.in_progress
          · rfl
          · exact absurd h hip
        have hip2 : a'.envdata.in_progress = false := by
          rw [← henv]
          exact hip'
        by_cases hus : a.envdata.ustate = USTATE_TESTING
        · have hus2 : a'.envdata.ustate = USTATE_TESTING := by
            rw [← henv]
            exact hus
          rw [selector_testing crcFn vols bglp a hL hip' hus,
              selector_testing crcFn vols' bglp a' hL' hip2 hus2]
          rcases hR : rankedRunnerUp crcFn vols with _ | b
          · have hR' : rankedRunnerUp crcFn vols' = none := by
              apply runner_none_iff.mpr
              rw [← hclen]
              exact runner_none_iff.mp hR
            simp only [hR, hR']
          · have hRex : ∃ b', rankedRunnerUp crcFn vols' = some b' := by
              rcases h' : rankedRunnerUp crcFn vols' with _ | b'
              · exfalso
                have h1 := runner_none_iff.mp h'
                rw [← hclen] at h1
                rw [runner_none_iff.mpr h1] at hR
                exact Option.noConfusion hR
              · exact ⟨b', rfl⟩
            obtain ⟨b', hR'⟩ := hRex
            have hvalb := runner_val_unique hperm hres hL hL' hR hR'
            have henvb : b.envdata = b'.envdata := congrArg Prod.fst hvalb
            simp only [hR, hR']
            rw [henvb]
        · have hus2 : a'.envdata.ustate ≠ USTATE_TESTING := by
            rw [← henv]
            exact hus
          by_cases hin : a.envdata.ustate = USTATE_INSTALLED
          · have hin2 : a'.envdata.ustate = USTATE_INSTALLED := by
              rw [← henv]
              exact hin
            rw [selector_installed crcFn vols bglp a hL hip' hin,
                selector_installed crcFn vols' bglp a' hL' hip2 hin2]
            have hf1 := save_env_fields crcFn (volAt vols a.volume_index).wio
              { a with envdata := { a.envdata with ustate := USTATE_TESTING } }
            have hf2 := save_env_fields crcFn (volAt vols' a'.volume_index).wio
              { a' with envdata := { a'.envdata with ustate := USTATE_TESTING } }
            show BG_LOADER_PARAMS.mk _ _ _ = BG_LOADER_PARAMS.mk _ _ _
            rw [hf1.2.2.2.2.2.1, hf1.2.2.2.2.2.2, hf1.2.2.2.2.1,
                hf2.2.2.2.2.2.1, hf2.2.2.2.2.2.2, hf2.2.2.2.2.1]
            dsimp only
            rw [henv]
          · have hin2 : a'.envdata.ustate ≠ USTATE_INSTALLED := by
              rw [← henv]
              exact hin
            rw [selector_other crcFn vols bglp a hL hip' hus hin,
                selector_other crcFn vols' bglp a' hL' hip2 hus2 hin2]
            dsimp only
            rw [henv]

/-! ### Witnesses: the claim theorems applied at concrete runs -/

theorem load_config_testing_demotion_witness :
    (load_config cexCrc false false cex2Vols cexBglp).bglp =
      ⟨strDuplicate (mkRecord 1 false USTATE_OK 99 [8, 0] []).kernelfile,
       strDuplicate (mkRecord 1 false USTATE_OK 99 [8, 0] []).kernelparams,
       (mkRecord 1 false USTATE_OK 99 [8, 0] []).watchdog_timeout_sec⟩ :=
  ((load_config_testing_demotion cexCrc cex2Vols cexBglp
      ⟨0, mkRecord 2 false USTATE_TESTING 11 [5, 0] []⟩
      (by decide) (by decide) (by decide)).2.2
    ⟨1, mkRecord 1 false USTATE_OK 99 [8, 0] []⟩ (by decide)).2

theorem load_config_installed_promotion_witness :
    (load_config cexCrc false false cex3Vols cexBglp).bglp =
      ⟨strDuplicate (mkRecord 2 false USTATE_INSTALLED 11 [5, 0] []).kernelfile,
       strDuplicate (mkRecord 2 false USTATE_INSTALLED 11 [5, 0] []).kernelparams,
       (mkRecord 2 false USTATE_INSTALLED 11 [5, 0] []).watchdog_timeout_sec⟩ :=
  (load_config_installed_promotion cexCrc cex3Vols cexBglp
      ⟨0, mkRecord 2 false USTATE_INSTALLED 11 [5, 0] []⟩
      (by decide) (by decide) (by decide)).2.2.2

theorem save_write_semantics_witness :
    (save_current_config cexCrc ⟨false, false, true, false⟩
      ⟨0, mkRecord 1 false USTATE_OK 1 [] []⟩).saved = false :=
  (save_write_semantics cexCrc ⟨false, false, true, false⟩
      ⟨0, mkRecord 1 false USTATE_OK 1 [] []⟩ sizeof_BG_ENVDATA).2.2.2.2
    (by decide)

theorem non_in_progress_selection_witness :
    (∃ a, rankedLeader cexCrc cexAm6Vols = some a ∧
      a.envdata.in_progress = false) ∧
    (∀ c, (load_config cexCrc false false cexAm6Vols cexBglp).chosen = some c →
      c.envdata.in_progress = false) :=
  non_in_progress_selection cexCrc cexAm6Vols cexBglp
    ⟨⟨0, mkRecord 2 false USTATE_OK 11 [5, 0] []⟩, by decide, by decide⟩
    (fun a ha => by
      have h : rankedLeader cexCrc cexAm6Vols =
          some ⟨0, mkRecord 2 false USTATE_OK 11 [5, 0] []⟩ := by decide
      rw [h] at ha
      rw [← Option.some.inj ha]
      decide)

theorem load_config_error_atomic_witness :
    (load_config cexCrc false false cex7Vols cexBglp).status =
      BG_STATUS.BG_CONFIG_ERROR ∧
    (load_config cexCrc false false cex7Vols cexBglp).writes = [] ∧
    (load_config cexCrc false false cex7Vols cexBglp).bglp = cexBglp :=
  load_config_error_atomic cexCrc false false cex7Vols cexBglp
    (Or.inr ⟨⟨0, mkRecord 1 true USTATE_OK 11 [] []⟩, by decide, by decide⟩)

theorem read_config_error_semantics_witness :
    (read_config cexCrc ⟨true, false, sizeof_BG_ENVDATA,
        mkRecord 1 false USTATE_OK 1 [] [], false, false⟩).1 = true ∧
    (read_config cexCrc ⟨true, false, sizeof_BG_ENVDATA,
        mkRecord 1 false USTATE_OK 1 [] [], false, false⟩).2.1 ≠
      EfiStatus.success :=
  (read_config_error_semantics cexCrc
      ⟨true, false, sizeof_BG_ENVDATA,
        mkRecord 1 false USTATE_OK 1 [] [], false, false⟩ cex2Vols 0).1
    (by decide)

theorem load_config_perm_deterministic_witness :
    (load_config cexCrc false false cex9Vols cexBglp).bglp =
      (load_config cexCrc false false cex9VolsRev cexBglp).bglp :=
  load_config_perm_deterministic cexCrc false false cex9Vols cex9VolsRev
    cexBglp (by decide) (by decide)

theorem load_config_failed_unknown_leader_witness :
    (∀ d : BG_ENVDATA, d.ustate ≠ USTATE_OK → d.ustate ≠ USTATE_INSTALLED →
      d.ustate ≠ USTATE_TESTING → config_state_ranking (some d) = 3) ∧
    (load_config cexCrc false false cex10Vols cexBglp).writes = [] ∧
    (load_config cexCrc false false cex10Vols cexBglp).chosen =
      some ⟨0, mkRecord 5 false USTATE_FAILED 44 [3, 0] []⟩ ∧
    (load_config cexCrc false false cex10Vols cexBglp).bglp =
      ⟨strDuplicate (mkRecord 5 false USTATE_FAILED 44 [3, 0] []).kernelfile,
       strDuplicate (mkRecord 5 false USTATE_FAILED 44 [3, 0] []).kernelparams,
       (mkRecord 5 false USTATE_FAILED 44 [3, 0] []).watchdog_timeout_sec⟩ ∧
    (runErrored cexCrc cex10Vols = false →
      (load_config cexCrc false false cex10Vols cexBglp).status =
        BG_STATUS.BG_SUCCESS) :=
  load_config_failed_unknown_leader cexCrc cex10Vols cexBglp
    ⟨0, mkRecord 5 false USTATE_FAILED 44 [3, 0] []⟩
    (by decide) (by decide) (by decide) (by decide) (by decide)

end EBG
